import Mathlib

/-!
# Verification of the ai-crawler orchestration core

Shallow embedding of the Python sources of the ai-crawler repository
(`backend/app/crawlers/base.py`, `requests_engine.py`, `multi_engine.py`,
`backend/app/utils/text_processor.py`, `natural_language_parser.py`,
`backend/app/api/routes.py`) together with theorems settling the spec
claims about them.

Conventions of the embedding:
* Python `str` is Lean `String`; character-level operations work on
  `List Char`.
* Python dicts are insertion-ordered association lists (`List (String × V)`);
  `dict[k] = v` is `Dict.set` which updates in place (keeping position) when
  the key exists and appends otherwise, exactly like CPython dicts.
* Python numbers: ints are `Int`, floats are modeled as `ℚ` (every float
  arithmetic the claims depend on is exact: sums, products by powers of two,
  and comparisons of small decimals).
* Fallible code returns `Except String α`; the string is `str(e)` of the
  exception.
* Wall-clock readings (`time.time()`, `datetime.now()`) are injected as
  explicit parameters.
* Python regexes are embedded via a small backtracking engine (`Rx`) with
  Python `re` semantics: ordered alternation, greedy/lazy quantifiers,
  `^`/`$` anchors with and without `MULTILINE`, `.` with and without
  `DOTALL`, `IGNORECASE` via `Char.toLower`, character classes with ranges
  and negation, capturing groups with `\1`-style references in replacement
  templates, and non-overlapping leftmost scanning for `sub`/`findall`.
-/

namespace AiCrawler

/-! ## Python string helpers -/

/-- Python whitespace as used by `str.strip()` / `\s` (ASCII portion; the
inputs this development evaluates on contain no exotic Unicode spaces). -/
def isPyWhitespace (c : Char) : Bool :=
  c = ' ' || c = '\t' || c = '\n' || c = '\x0d' || c = '\x0b' || c = '\x0c'

/-- `s.startswith(p)` on character lists. -/
def isPrefixL : List Char → List Char → Bool
  | [], _ => true
  | _ :: _, [] => false
  | p :: ps, c :: cs => p = c && isPrefixL ps cs

/-- `p in s` (substring containment), on character lists. -/
def containsL (s p : List Char) : Bool :=
  match s with
  | [] => isPrefixL p []
  | _ :: rest => isPrefixL p s || containsL rest p

/-- Python `p in s` substring test. -/
def pyContains (s p : String) : Bool := containsL s.data p.data

/-- Python `s.replace(old, new)` (all non-overlapping occurrences, left to
right); `old` is assumed non-empty (as in all call sites).  The fuel
argument (one unit per character) keeps the recursion structural. -/
def pyReplaceLGo (old new : List Char) : Nat → List Char → List Char
  | 0, s => s
  | _, [] => []
  | gas + 1, c :: rest =>
    if isPrefixL old (c :: rest) ∧ old ≠ [] then
      new ++ pyReplaceLGo old new gas ((c :: rest).drop old.length)
    else
      c :: pyReplaceLGo old new gas rest

def pyReplaceL (old new s : List Char) : List Char :=
  pyReplaceLGo old new (s.length + 1) s

def pyReplace (s old new : String) : String :=
  ⟨pyReplaceL old.data new.data s.data⟩

/-- Python `s.strip()`. -/
def pyStrip (s : String) : String :=
  ⟨(s.data.dropWhile isPyWhitespace).reverse.dropWhile isPyWhitespace |>.reverse⟩

/-- Python `s.lower()` (ASCII case folding; Korean text is unaffected). -/
def pyLower (s : String) : String := ⟨s.data.map Char.toLower⟩

/-- Python `s.split('\n')`. -/
def pySplitNl (s : String) : List String :=
  (s.data.splitOn '\n').map (fun l => ⟨l⟩)

/-- Python `'\n'.join(xs)`. -/
def pyJoinNl (xs : List String) : String :=
  ⟨List.intercalate ['\n'] (xs.map String.data)⟩

/-- Python `s.startswith(p)`. -/
def pyStartsWith (s p : String) : Bool := isPrefixL p.data s.data

/-- Python `str(x)` for an `Optional[str]`: `str(None) = "None"`. -/
def pyStrOpt : Option String → String
  | Option.none => "None"
  | some s => s

/-! ## A small regex engine with Python `re` semantics

Only the constructs appearing in the repository's patterns are supported:
literals, character classes (single chars, ranges, negation), `.`, ordered
alternation, greedy and lazy `*`/`+`/`?`/`{m,n}` repetition, capturing
groups, lookahead `(?=…)`, and the `^`/`$` anchors.  Matching is
backtracking with Python's ordered-choice semantics (alternation prefers
the left branch, greedy repetition prefers longer, lazy prefers shorter,
scanning is leftmost).  A fuel argument makes the matcher structurally
terminating; every repetition body in the embedded patterns consumes at
least one character, so the chosen fuel is always sufficient. -/

structure ReFlags where
  icase : Bool := false
  multiline : Bool := false
  dotall : Bool := false

inductive ClsItem where
  | single (c : Char)
  | range (lo hi : Char)

inductive Rx where
  | eps
  | lit (c : Char)
  | cls (neg : Bool) (items : List ClsItem)
  | dot
  | seq (a b : Rx)
  | alt (a b : Rx)
  | rep (r : Rx) (lo : Nat) (hi : Option Nat) (lazy : Bool)
  | group (idx : Nat) (r : Rx)
  | look (r : Rx)
  | bol
  | eol

namespace Rx

def star (r : Rx) : Rx := rep r 0 Option.none false
def plus (r : Rx) : Rx := rep r 1 Option.none false
def opt (r : Rx) : Rx := rep r 0 (some 1) false
def lazyStar (r : Rx) : Rx := rep r 0 Option.none true
def lazyPlus (r : Rx) : Rx := rep r 1 Option.none true

/-- Literal string pattern. -/
def chrs (s : String) : Rx := s.data.foldr (fun c acc => seq (lit c) acc) eps

/-- `[...]` over the listed single characters. -/
def oneOf (s : String) : Rx := cls false (s.data.map ClsItem.single)

/-- `[^...]` over the listed single characters. -/
def noneOf (s : String) : Rx := cls true (s.data.map ClsItem.single)

/-- `\s` (ASCII portion, see `isPyWhitespace`). -/
def sSpace : Rx := cls false [.single ' ', .single '\t', .single '\n',
  .single '\x0d', .single '\x0b', .single '\x0c']

/-- `\d`. -/
def sDigit : Rx := cls false [.range '0' '9']

/-- Node count, used to size the matcher fuel. -/
def size : Rx → Nat
  | eps | lit _ | cls _ _ | dot | bol | eol => 1
  | seq a b | alt a b => size a + size b + 1
  | rep r lo _ _ => size r + lo + 2
  | group _ r => size r + 1
  | look r => size r + 1

end Rx

/-- Group captures: association list `index ↦ (start, end)`; the most
recent capture of a group is first. -/
abbrev Caps := List (Nat × Nat × Nat)

/-- Character equality under optional `IGNORECASE`. -/
def eqChar (fl : ReFlags) (p c : Char) : Bool :=
  if fl.icase then p.toLower = c.toLower else p = c

/-- Character-class membership.  (Range items are only used in patterns
without `IGNORECASE` in this repository, so ranges compare raw.) -/
def clsMem (fl : ReFlags) (items : List ClsItem) (c : Char) : Bool :=
  items.any fun it =>
    match it with
    | .single d => eqChar fl d c
    | .range lo hi => lo ≤ c && c ≤ hi

/-- The backtracking matcher.  `k` is the success continuation taking the
position after the match and the captures so far. -/
def matchRx (fl : ReFlags) (s : List Char) :
    Nat → Rx → Nat → Caps → (Nat → Caps → Option (Nat × Caps)) →
    Option (Nat × Caps)
  | 0, _, _, _, _ => Option.none
  | fuel + 1, r, i, caps, k =>
    match r with
    | .eps => k i caps
    | .lit c =>
      match s.get? i with
      | some d => if eqChar fl c d then k (i + 1) caps else Option.none
      | Option.none => Option.none
    | .cls neg items =>
      match s.get? i with
      | some d => if clsMem fl items d ≠ neg then k (i + 1) caps else Option.none
      | Option.none => Option.none
    | .dot =>
      match s.get? i with
      | some d =>
        if fl.dotall || d ≠ '\n' then k (i + 1) caps else Option.none
      | Option.none => Option.none
    | .bol =>
      if i = 0 || (fl.multiline && s.get? (i - 1) = some '\n') then k i caps
      else Option.none
    | .eol =>
      if i = s.length ||
         (if fl.multiline then s.get? i = some '\n'
          else i + 1 = s.length && s.get? i = some '\n') then k i caps
      else Option.none
    | .seq a b =>
      matchRx fl s fuel a i caps fun j caps' => matchRx fl s fuel b j caps' k
    | .alt a b =>
      (matchRx fl s fuel a i caps k).orElse fun _ => matchRx fl s fuel b i caps k
    | .group idx r =>
      matchRx fl s fuel r i caps fun j caps' => k j ((idx, i, j) :: caps')
    | .look r =>
      match matchRx fl s fuel r i caps fun j caps' => some (j, caps') with
      | some (_, caps') => k i caps'
      | Option.none => Option.none
    | .rep r lo hi lazy =>
      match lo with
      | n + 1 =>
        matchRx fl s fuel r i caps fun j caps' =>
          matchRx fl s fuel (.rep r n (hi.map (· - 1)) lazy) j caps' k
      | 0 =>
        match hi with
        | some 0 => k i caps
        | _ =>
          let more := fun (_ : Unit) =>
            matchRx fl s fuel r i caps fun j caps' =>
              if j = i then Option.none
              else matchRx fl s fuel (.rep r 0 (hi.map (· - 1)) lazy) j caps' k
          if lazy then (k i caps).orElse more
          else (more ()).orElse fun _ => k i caps

/-- Fuel that is always sufficient for the embedded patterns (whose
repetition bodies all consume at least one character per iteration). -/
def reFuel (r : Rx) (s : List Char) : Nat :=
  (s.length + 4) * (r.size + 4) + 64

/-- Try to match `r` exactly at position `i` (the core of `re.match` and of
the scanning loops).  Returns the end position and captures. -/
def tryMatchAt (fl : ReFlags) (r : Rx) (s : List Char) (i : Nat) :
    Option (Nat × Caps) :=
  matchRx fl s (reFuel r s) r i [] fun j caps => some (j, caps)

/-- Leftmost search starting at position `start` (`re.search` semantics).
Returns `(matchStart, matchEnd, captures)`. -/
def searchFrom (fl : ReFlags) (r : Rx) (s : List Char) (start : Nat) :
    Option (Nat × Nat × Caps) :=
  (List.range (s.length + 1 - start)).findSome? fun d =>
    (tryMatchAt fl r s (start + d)).map fun (j, caps) => (start + d, j, caps)

/-- `s[a:b]` on character lists. -/
def sliceL (s : List Char) (a b : Nat) : List Char := (s.take b).drop a

/-- One item of a replacement template: literal text or a group reference. -/
inductive TplItem where
  | txt (s : String)
  | grp (idx : Nat)

/-- Instantiate a replacement template with the captures of a match
(`re.sub` backreference semantics; a group that did not participate
yields the empty string, which never happens in the embedded patterns). -/
def applyTpl (s : List Char) (caps : Caps) (tpl : List TplItem) : List Char :=
  tpl.flatMap fun it =>
    match it with
    | .txt t => t.data
    | .grp idx =>
      match caps.find? (fun c => c.1 = idx) with
      | some (_, a, b) => sliceL s a b
      | Option.none => []

/-- The scanning loop shared by `re.sub` and `re.findall`: non-overlapping
leftmost matches; an empty match consumes one extra character afterwards
(Python ≥ 3.7 behaviour; the embedded patterns never match empty). -/
def reSubL (fl : ReFlags) (r : Rx) (tpl : List TplItem) (s : List Char) :
    Nat → Nat → List Char
  | _, 0 => []
  | i, gas + 1 =>
    if i > s.length then []
    else
      match searchFrom fl r s i with
      | Option.none => s.drop i
      | some (a, b, caps) =>
        sliceL s i a ++ applyTpl s caps tpl ++
          (if b = a then
            (match s.get? a with
             | some c => c :: reSubL fl r tpl s (a + 1) gas
             | Option.none => [])
           else reSubL fl r tpl s b gas)

/-- `re.sub(pattern, repl, s, flags)`. -/
def reSub (fl : ReFlags) (r : Rx) (tpl : List TplItem) (s : String) : String :=
  ⟨reSubL fl r tpl s.data 0 (s.data.length + 2)⟩

/-- `re.findall(pattern, s)` for patterns without capturing groups:
the list of whole matches. -/
def reFindAllL (fl : ReFlags) (r : Rx) (s : List Char) :
    Nat → Nat → List (List Char)
  | _, 0 => []
  | i, gas + 1 =>
    if i > s.length then []
    else
      match searchFrom fl r s i with
      | Option.none => []
      | some (a, b, _) =>
        sliceL s a b ::
          (if b = a then
            (if a < s.length then reFindAllL fl r s (a + 1) gas else [])
           else reFindAllL fl r s b gas)

def reFindAll (fl : ReFlags) (r : Rx) (s : String) : List String :=
  (reFindAllL fl r s.data 0 (s.data.length + 2)).map fun l => ⟨l⟩

/-- `re.search(pattern, s)` as a Boolean. -/
def reTest (fl : ReFlags) (r : Rx) (s : String) : Bool :=
  (searchFrom fl r s.data 0).isSome

/-- `re.search` returning `match.group(1)` when the pattern matches. -/
def reSearchGroup1 (fl : ReFlags) (r : Rx) (s : String) : Option String :=
  (searchFrom fl r s.data 0).bind fun (_, _, caps) =>
    (caps.find? (fun c => c.1 = 1)).map fun (_, a, b) => (⟨sliceL s.data a b⟩ : String)

/-- `re.match(pattern, s)` as a Boolean (anchored at the start only). -/
def reMatchTest (fl : ReFlags) (r : Rx) (s : String) : Bool :=
  (tryMatchAt fl r s.data 0).isSome

/-! ## Python values and dicts

The repository passes open `Dict[str, Any]` metadata everywhere.  `Value`
is the universe of values stored in them; `Dict` is an insertion-ordered
association list with CPython dict semantics (`set` updates in place when
the key exists and appends otherwise). -/

inductive Value where
  | str (s : String)
  | int (n : Int)
  | rat (q : ℚ)
  | bool (b : Bool)
  | list (xs : List Value)
  | dict (kvs : List (String × Value))
  | none

abbrev Dict := List (String × Value)

namespace Dict

/-- `d.get(k)` / `d[k]` lookup. -/
def get (d : Dict) (k : String) : Option Value :=
  (d.find? (fun kv => kv.1 = k)).map Prod.snd

/-- `d.get(k, default)`. -/
def getD (d : Dict) (k : String) (v : Value) : Value := (get d k).getD v

/-- `d[k] = v`: replaces in place when `k` is present, appends otherwise. -/
def set (d : Dict) (k : String) (v : Value) : Dict :=
  if d.any (fun kv => kv.1 = k) then
    d.map fun kv => if kv.1 = k then (k, v) else kv
  else d ++ [(k, v)]

/-- `d.update(e)`: apply `set` for each pair of `e` in order. -/
def update (d : Dict) (e : List (String × Value)) : Dict :=
  e.foldl (fun acc kv => set acc kv.1 kv.2) d

/-- The keys of `d`, in order. -/
def keys (d : Dict) : List String := d.map Prod.fst

end Dict

/-! ## `backend/app/crawlers/base.py` -/

/-- `CrawlResult` (base.py:10-20).  `timestamp` is the injected
`datetime.now()` reading, kept abstract as a rational instant. -/
structure CrawlResult where
  url : String
  title : String
  text : String
  hierarchy : Dict
  metadata : Dict
  status : String
  timestamp : ℚ
  error : Option String := Option.none

/-- `CrawlStrategy` (base.py:22-39).  `custom_selectors = None` is already
normalized to `{}` as `__post_init__` does. -/
structure CrawlStrategy where
  engine_priority : List String
  timeout : Int := 30
  max_retries : Int := 3
  wait_time : ℚ := 1
  extract_images : Bool := false
  extract_links : Bool := true
  custom_selectors : List (String × String) := []
  anti_bot_mode : Bool := false
  activity_timeout : Int := 15
  max_total_time : Int := 300
  deriving DecidableEq

/-- The running stats of a `BaseCrawler` (base.py:47-52). -/
structure EngineStats where
  total_requests : Nat := 0
  successful_requests : Nat := 0
  failed_requests : Nat := 0
  avg_response_time : ℚ := 0
  deriving DecidableEq

/-- `BaseCrawler._update_stats` (base.py:83-94). -/
def updateStats (st : EngineStats) (success : Bool) (response_time : ℚ) :
    EngineStats :=
  let total := st.total_requests + 1
  { total_requests := total
    successful_requests := st.successful_requests + (if success then 1 else 0)
    failed_requests := st.failed_requests + (if success then 0 else 1)
    avg_response_time :=
      (st.avg_response_time * (total - 1 : ℕ) + response_time) / (total : ℚ) }

/-- The permanent-error substrings of `crawl_with_retry` (base.py:114-121). -/
def permanentErrors : List String :=
  ["404", "not found", "403", "forbidden", "dns", "name resolution failed",
   "connection refused", "invalid url", "malformed url", "ssl certificate",
   "certificate verify failed"]

/-- `any(err in error_msg for err in permanent_errors)` with
`error_msg = str(e).lower()` (base.py:111-124). -/
def isPermanentError (msg : String) : Bool :=
  permanentErrors.any fun err => pyContains (pyLower msg) err

/-- The observable outcome of one `crawl_with_retry` call: the returned
result plus the instrumented trace (number of `crawl` calls, the
`asyncio.sleep` durations in order, and the `_update_stats` calls). -/
structure RetryOutcome where
  result : CrawlResult
  attempts : Nat
  sleeps : List ℚ
  statCalls : List (Bool × ℚ)

/-- One attempt of the wrapped engine: either `crawl` returns a result
(with its measured elapsed time) or raises an exception with message
`str(e)`. -/
abbrev CrawlOracle := Nat → Except String (CrawlResult × ℚ)

/-- The result `crawl_with_retry` builds after the loop exits without a
successful `crawl` return (base.py:136-147). -/
def retryFailureResult (name url : String) (lastError : Option String)
    (now : ℚ) : CrawlResult :=
  { url := url, title := "", text := "", hierarchy := []
    metadata := [("crawler_used", .str name),
                 ("error", .str (pyStrOpt lastError))]
    status := "failed", timestamp := now
    error := some (pyStrOpt lastError) }

/-- The loop of `crawl_with_retry` (base.py:100-134), structurally
recursive on the remaining iterations of `range(strategy.max_retries)`.
`attempt` is the current index, `made` the number of `crawl` calls so far.
A permanent error is `break` (modelled as zero remaining iterations). -/
def crawlWithRetryLoop (name url : String) (crawlFn : CrawlOracle)
    (strategy : CrawlStrategy) (now : ℚ) :
    (remaining : Nat) → (attempt : Nat) → (made : Nat) → (sleeps : List ℚ) →
    (lastError : Option String) → RetryOutcome
  | 0, _, made, sleeps, lastError =>
    { result := retryFailureResult name url lastError now
      attempts := made, sleeps := sleeps, statCalls := [(false, 0)] }
  | remaining + 1, attempt, made, sleeps, lastError =>
    match crawlFn attempt with
    | .ok (result, elapsed) =>
      { result := result, attempts := made + 1, sleeps := sleeps
        statCalls := [(true, elapsed)] }
    | .error e =>
      if isPermanentError e then
        -- `break` (base.py:126-128) jumps straight to the post-loop
        -- failure construction with `last_error = e`
        { result := retryFailureResult name url (some e) now
          attempts := made + 1, sleeps := sleeps, statCalls := [(false, 0)] }
      else if (attempt : Int) < strategy.max_retries - 1 then
        let wait := strategy.wait_time * 2 ^ attempt
        crawlWithRetryLoop name url crawlFn strategy now remaining
          (attempt + 1) (made + 1) (sleeps ++ [wait]) (some e)
      else
        crawlWithRetryLoop name url crawlFn strategy now remaining
          (attempt + 1) (made + 1) sleeps (some e)

/-- `BaseCrawler.crawl_with_retry` (base.py:96-147). -/
def crawlWithRetry (name url : String) (crawlFn : CrawlOracle)
    (strategy : CrawlStrategy) (now : ℚ) : RetryOutcome :=
  crawlWithRetryLoop name url crawlFn strategy now
    strategy.max_retries.toNat 0 0 [] Option.none

/-! ## `backend/app/crawlers/requests_engine.py` -/

/-- Why `_read_response_with_activity_timeout`'s chunk loop stopped. -/
inductive ReadStop where
  | finishedIter   -- the chunk iterator was exhausted (stream closed)
  | emptyChunk     -- `if not chunk: break` (requests_engine.py:212-213)
  | totalTimeout   -- max-total-time break (requests_engine.py:225-227)
  | activityGap    -- inter-chunk-gap break (requests_engine.py:230-233)
  deriving DecidableEq

structure ReadOutcome where
  chunks : List String   -- `content_chunks` at exit; the return is their join
  stop : ReadStop
  deriving DecidableEq

/-- The chunk loop of `_read_response_with_activity_timeout`
(requests_engine.py:209-239).  The incoming stream is a list of
`(arrivalTime, chunk)` pairs.  Between receiving a chunk and the end of
its loop iteration the code performs no `await`, so the several
`time.time()` readings of one iteration are modelled as the single
arrival instant `t` of that chunk; in particular
`time_since_last_chunk = t - last_chunk_time` with `last_chunk_time`
having just been set to `t` (requests_engine.py:217,230).  While the
stream stalls the coroutine is suspended inside `async for`, where no
checking code runs at all. -/
def readResponseLoop (activity_timeout max_total_time start_time : ℚ) :
    List (ℚ × String) → List String → ReadOutcome
  | [], acc => ⟨acc, .finishedIter⟩
  | (t, chunk) :: rest, acc =>
    if chunk = "" then ⟨acc, .emptyChunk⟩
    else
      let acc' := acc ++ [chunk]
      let last_chunk_time := t
      if t - start_time > max_total_time then ⟨acc', .totalTimeout⟩
      else if t - last_chunk_time > activity_timeout then ⟨acc', .activityGap⟩
      else readResponseLoop activity_timeout max_total_time start_time rest acc'

/-- `RequestsEngine._read_response_with_activity_timeout`
(requests_engine.py:195-250), success path: the joined chunks. -/
def readResponseWithActivityTimeout (activity_timeout max_total_time
    start_time : ℚ) (stream : List (ℚ × String)) : ReadOutcome :=
  readResponseLoop activity_timeout max_total_time start_time stream []

/-- What happened inside `RequestsEngine.crawl`'s `try` block: the initial
request timed out, some exception was raised (its Python type name and
`str(e)` — this includes the `HTTP {status}` raise of line 266), or the
fetch+parse succeeded.  The HTML parsing done by BeautifulSoup
(title/text/hierarchy/meta extraction, requests_engine.py:286-305) is
beyond the embedding; its outputs arrive in `ReqPage`. -/
structure ReqPage where
  title : String
  text_content : String
  hierarchy : Dict
  quality_score : ℚ
  http_status : Int
  content_type : String
  content_length : Nat
  meta_description : Option String
  meta_keywords : Option String
  og_title : Option String
  og_description : Option String

inductive ReqEvent where
  | timeout
  | raised (typeName msg : String)
  | success (page : ReqPage)

def optStrVal : Option String → Value
  | Option.none => Value.none
  | some s => .str s

/-- `RequestsEngine.crawl` (requests_engine.py:252-357).  Raises (returns
`.error`) only when the engine is not initialized (line 254-255); every
other failure is converted to a failed `CrawlResult`. -/
def requestsCrawl (initialized : Bool) (ev : ReqEvent) (url : String)
    (strategy : CrawlStrategy) (now : ℚ) : Except String CrawlResult :=
  if ¬ initialized then .error "Requests 엔진이 초기화되지 않았습니다"
  else
    match ev with
    | .success page =>
      .ok
        { url := url
          title := page.title
          text := page.text_content
          hierarchy := page.hierarchy
          metadata :=
            [("crawler_used", .str "requests"),
             ("processing_time", .str "활동기반"),
             ("content_quality", .str
               (if page.quality_score > 80 then "high"
                else if page.quality_score > 50 then "medium" else "low")),
             ("extraction_confidence", .rat (page.quality_score / 100)),
             ("http_status", .int page.http_status),
             ("content_type", .str page.content_type),
             ("content_length", .int page.content_length),
             ("text_length", .int page.text_content.length),
             ("quality_score", .rat page.quality_score),
             ("timeout_strategy", .str "activity_based"),
             ("meta_description", optStrVal page.meta_description),
             ("meta_keywords", optStrVal page.meta_keywords),
             ("og_title", optStrVal page.og_title),
             ("og_description", optStrVal page.og_description)]
          status := "complete"
          timestamp := now }
    | .timeout =>
      .ok
        { url := url, title := "", text := "", hierarchy := []
          metadata :=
            [("crawler_used", .str "requests"),
             ("error_type", .str "TimeoutError"),
             ("processing_time", .str "0s")]
          status := "failed", timestamp := now
          error := some ("연결 시간 초과 (" ++ toString strategy.timeout ++ "초)") }
    | .raised typeName msg =>
      .ok
        { url := url, title := "", text := "", hierarchy := []
          metadata :=
            [("crawler_used", .str "requests"),
             ("error_type", .str typeName),
             ("processing_time", .str "0s")]
          status := "failed", timestamp := now
          error := some msg }

/-! ## `backend/app/crawlers/multi_engine.py` -/

/-- `[a-zA-Z0-9]`. -/
def alnumRx : Rx := .cls false [.range 'a' 'z', .range 'A' 'Z', .range '0' '9']

/-- `[a-zA-Z0-9\-]{0,61}[a-zA-Z0-9]`, the grouped tail of a domain label. -/
def domainInnerRx : Rx :=
  .seq (.rep (.cls false [.range 'a' 'z', .range 'A' 'Z', .range '0' '9',
      .single '-']) 0 (some 61) false)
    alnumRx

/-- The domain regex of `_validate_url` (multi_engine.py:127):
`^[a-zA-Z0-9]([a-zA-Z0-9\-]{0,61}[a-zA-Z0-9])?(\.[a-zA-Z0-9]([a-zA-Z0-9\-]{0,61}[a-zA-Z0-9])?)*$`. -/
def domainPatternRx : Rx :=
  .seq .bol (.seq alnumRx (.seq (Rx.opt (.group 1 domainInnerRx))
    (.seq (Rx.star (.group 2 (.seq (.lit '.')
      (.seq alnumRx (Rx.opt (.group 3 domainInnerRx)))))) .eol)))

/-- A conservative model of `urllib.parse.urlparse(url).scheme/netloc` for
the absolute-URL shapes this code base validates: when the input contains
`"://"` the scheme is the (raw) prefix and the netloc runs to the first of
`/?#`; otherwise both are empty (`urlparse` never produces a netloc
without a `//`). -/
def urlparseSchemeNetloc (url : String) : String × String :=
  let s := url.data
  let rec split : List Char → Option (List Char × List Char)
    | [] => Option.none
    | c :: rest =>
      if isPrefixL [':', '/', '/'] (c :: rest) then some ([], (c :: rest).drop 3)
      else (split rest).map fun (a, b) => (c :: a, b)
  match split s with
  | Option.none => ("", "")
  | some (scheme, rest) =>
    let netloc := rest.takeWhile fun c => c ≠ '/' && c ≠ '?' && c ≠ '#'
    (⟨scheme⟩, ⟨netloc⟩)

/-- The `known_issues` substrings of `_validate_url` (multi_engine.py:132-137). -/
def knownIssues : List String :=
  ["lineCombOrder/lineCombList.do", "javascript:", "mailto:", "#"]

/-- `MultiEngineCrawler._validate_url` (multi_engine.py:108-146), returning
`(is_valid, message)`. -/
def validateUrl (url : String) : Bool × String :=
  if url = "" then (false, "URL이 비어있거나 문자열이 아닙니다")
  else
    let stripped := pyStrip url
    let (scheme, netloc) := urlparseSchemeNetloc stripped
    if scheme = "" || (pyLower scheme ≠ "http" && pyLower scheme ≠ "https") then
      (false, "지원하지 않는 스키마: " ++ scheme)
    else if netloc = "" then (false, "도메인이 없습니다")
    else
      let host : String := ⟨netloc.data.takeWhile (· ≠ ':')⟩
      if ¬ reMatchTest {} domainPatternRx host then
        (false, "잘못된 도메인 형식: " ++ netloc)
      else
        match knownIssues.find? (fun issue => pyContains url issue) with
        | some issue => (false, "알려진 문제 URL 패턴: " ++ issue)
        | Option.none => (true, "유효한 URL")

/-- The `crawler_strategies` table (multi_engine.py:32-58):
site-type ↦ (primary, fallback). -/
def crawlerStrategies : List (String × String × List String) :=
  [("complex_spa", "crawl4ai", ["firecrawl", "playwright", "requests"]),
   ("ai_analysis_needed", "crawl4ai", ["firecrawl", "playwright", "requests"]),
   ("anti_bot_heavy", "playwright", ["firecrawl", "crawl4ai", "requests"]),
   ("standard_dynamic", "playwright", ["crawl4ai", "firecrawl", "requests"]),
   ("simple_static", "requests", ["crawl4ai", "firecrawl", "playwright"])]

/-- The `timeout_config` table inside `get_strategy_config`
(multi_engine.py:323-329). -/
def timeoutConfig : List (String × Int) :=
  [("complex_spa", 60), ("ai_analysis_needed", 45), ("anti_bot_heavy", 60),
   ("standard_dynamic", 40), ("simple_static", 30)]

/-- `MultiEngineCrawler.get_strategy_config` (multi_engine.py:308-336).
`engines` is the registry key list (`self.engines`, in insertion order). -/
def getStrategyConfig (engines : List String) (strategy_type : String) :
    CrawlStrategy :=
  let strategy_type :=
    if (crawlerStrategies.find? (fun e => e.1 = strategy_type)).isNone
    then "simple_static" else strategy_type
  let config := (crawlerStrategies.find? (fun e => e.1 = strategy_type)).getD
    ("simple_static", "requests", ["crawl4ai", "firecrawl", "playwright"])
  let available_engines :=
    ([config.2.1] ++ config.2.2).filter (fun eng => engines.contains eng)
  let available_engines :=
    if available_engines = [] then engines else available_engines
  { engine_priority := available_engines
    timeout := ((timeoutConfig.find? (fun e => e.1 = strategy_type)).map
      Prod.snd).getD 30
    max_retries := 3
    wait_time := 1 }

/-- The `crawling_strategy` sub-dict of an analysis result, as consumed by
`crawl_with_strategy` (multi_engine.py:395-397): `dict.get` with defaults
`"requests"` / `["requests"]`. -/
structure AnalysisStrategy where
  recommended_engine : Option String := Option.none
  fallback_engines : Option (List String) := Option.none

/-- The strategy the automatic (no-override) path of `crawl_with_strategy`
builds from an analysis result (multi_engine.py:394-457).  `engines` is
the registry key list. -/
def autoStrategy (engines : List String) (cs : AnalysisStrategy) :
    CrawlStrategy :=
  let recommended_crawler := cs.recommended_engine.getD "requests"
  let fallback_crawlers := cs.fallback_engines.getD ["requests"]
  let engine_priority :=
    [recommended_crawler] ++ fallback_crawlers.filter (· ≠ recommended_crawler)
  let available_engines := engine_priority.filter (fun e => engines.contains e)
  let available_engines :=
    if available_engines = [] then engines else available_engines
  { engine_priority := available_engines
    timeout := 30
    max_retries := 3
    wait_time := 1 }

/-- Python `f"{x:.2f}"` on the exact rational model of the float (rounding
of the exact value; no claim depends on this string). -/
def pyFmt2f (q : ℚ) : String :=
  let n : ℤ := round (q * 100)
  let m := n.natAbs
  (if n < 0 then "-" else "") ++ toString (m / 100) ++ "." ++
    (if m % 100 < 10 then "0" else "") ++ toString (m % 100)

/-- The environment of the engine loop of `crawl_with_strategy`
(multi_engine.py:463-566): the registry key list, the behaviour of each
registered engine's `crawl_with_retry` (result plus measured wall-time, or
a defensively caught exception), the `analysis_result` (`none` on the
custom-strategy path), the outcome of the external MCP quality validation
(lines 508-524, `none` covering every skipped/failed branch), the output
of `_generate_engine_selection_explanation` (explanation metadata only,
injected), and the `datetime.now()` reading of the failure constructor. -/
structure OrchestratorEnv where
  registry : List String
  run : String → Except String (CrawlResult × ℚ)
  analysis : Option Value
  quality : Option (Value × Value)
  selectionReason : String → List String → Value
  now : ℚ

/-- Metadata enrichment of a successful engine result
(multi_engine.py:493-537). -/
def enrichSuccess (env : OrchestratorEnv) (result : CrawlResult)
    (name : String) (attempted : List String) (i total : Nat)
    (execTime : ℚ) : CrawlResult :=
  let md := result.metadata
  let md := md.set "attempted_engines" (.list (attempted.map .str))
  let md := md.set "successful_engine_index" (.int i)
  let md := md.set "total_available_engines" (.int total)
  let md := md.set "processing_time" (.str (pyFmt2f execTime ++ "s"))
  let md := md.set "execution_time" (.rat execTime)
  let md := md.set "engine_used" (.str name)
  let md :=
    match env.analysis, env.quality with
    | some _, some (qs, qa) =>
      (md.set "mcp_quality_score" qs).set "quality_assessment" qa
    | _, _ => md
  let md :=
    match env.analysis with
    | some a =>
      ((md.set "mcp_analysis" a).set "used_mcp_intelligence" (.bool true)).set
        "engine_selection_reason" (env.selectionReason name attempted)
    | Option.none => md
  { result with metadata := md }

/-- The all-engines-failed result (multi_engine.py:552-566). -/
def allFailedResult (url : String) (attempted : List String) (total : Nat)
    (lastError : Option String) (now : ℚ) : CrawlResult :=
  { url := url, title := "", text := "", hierarchy := []
    metadata :=
      [("attempted_engines", .list (attempted.map .str)),
       ("total_available_engines", .int total),
       ("final_error", .str (pyStrOpt lastError)),
       ("all_engines_failed", .bool true)]
    status := "failed", timestamp := now
    error := some ("모든 엔진 실패: " ++ pyStrOpt lastError) }

/-- The engine loop of `crawl_with_strategy` (multi_engine.py:463-566).
Every engine name is appended to `attempted` *before* the registry
membership check (lines 472-478). -/
def engineLoopGo (env : OrchestratorEnv) (url : String) (total : Nat) :
    List String → Nat → List String → Option String → CrawlResult
  | [], _, attempted, lastError =>
    allFailedResult url attempted total lastError env.now
  | name :: rest, i, attempted, lastError =>
    let attempted := attempted ++ [name]
    if ¬ env.registry.contains name then
      engineLoopGo env url total rest (i + 1) attempted lastError
    else
      match env.run name with
      | .error e => engineLoopGo env url total rest (i + 1) attempted (some e)
      | .ok (result, execTime) =>
        if result.status = "complete" then
          enrichSuccess env result name attempted i total execTime
        else
          engineLoopGo env url total rest (i + 1) attempted result.error

def engineLoop (env : OrchestratorEnv) (url : String)
    (priority : List String) : CrawlResult :=
  engineLoopGo env url priority.length priority 1 [] Option.none

/-- The failed result of a URL-validation failure
(multi_engine.py:349-360). -/
def validationFailureResult (url msg : String) (now : ℚ) : CrawlResult :=
  { url := url, title := "", text := "", hierarchy := []
    metadata := [("error", .str msg), ("validation_failed", .bool true)]
    status := "failed", timestamp := now
    error := some ("URL 유효성 검사 실패: " ++ msg) }

/-- `MultiEngineCrawler.crawl_with_strategy` (multi_engine.py:338-566).
`custom` is the optional override strategy; on the automatic path the MCP
analysis produced `analysisVal` (recorded into success metadata) whose
`crawling_strategy` entry decodes to `autoCS`.  Raises (`.error`) only
when the crawler is not initialized. -/
def crawlWithStrategy (initialized : Bool) (env : OrchestratorEnv)
    (url : String) (custom : Option CrawlStrategy) (analysisVal : Value)
    (autoCS : AnalysisStrategy) : Except String CrawlResult :=
  if ¬ initialized then .error "크롤러가 초기화되지 않았습니다"
  else
    let v := validateUrl url
    if ¬ v.1 then .ok (validationFailureResult url v.2 env.now)
    else
      let strategy :=
        match custom with
        | some s => s
        | Option.none => autoStrategy env.registry autoCS
      let env :=
        { env with analysis :=
            match custom with
            | some _ => Option.none
            | Option.none => some analysisVal }
      .ok (engineLoop env url strategy.engine_priority)

/-! ## `backend/app/utils/text_processor.py` -/

/-- `\\([()])` (text_processor.py:21). -/
def pEscParen : Rx := .seq (.lit '\\') (.group 1 (Rx.oneOf "()"))

/-- `\[([^\]]+)\]\(javascript:[^)]*(?:\([^)]*\))*[^)]*\)`
(text_processor.py:25). -/
def pJsLink : Rx :=
  .seq (.lit '[') (.seq (.group 1 (Rx.plus (Rx.noneOf "]")))
    (.seq (.lit ']') (.seq (.lit '(') (.seq (Rx.chrs "javascript:")
      (.seq (Rx.star (Rx.noneOf ")"))
        (.seq (Rx.star (.seq (.lit '(') (.seq (Rx.star (Rx.noneOf ")")) (.lit ')'))))
          (.seq (Rx.star (Rx.noneOf ")")) (.lit ')'))))))))

/-- `\[([^\]]+)\]\(#[^)]*\)` (text_processor.py:27). -/
def pAnchorLink : Rx :=
  .seq (.lit '[') (.seq (.group 1 (Rx.plus (Rx.noneOf "]")))
    (.seq (.lit ']') (.seq (.lit '(') (.seq (.lit '#')
      (.seq (Rx.star (Rx.noneOf ")")) (.lit ')'))))))

/-- `\[([^\]]+)\]\(mailto:[^)]*\)` (text_processor.py:29). -/
def pMailtoLink : Rx :=
  .seq (.lit '[') (.seq (.group 1 (Rx.plus (Rx.noneOf "]")))
    (.seq (.lit ']') (.seq (.lit '(') (.seq (Rx.chrs "mailto:")
      (.seq (Rx.star (Rx.noneOf ")")) (.lit ')'))))))

/-- `\[([^\]]+)\]\((https?://[^/)]+)/[^)]*\)` (text_processor.py:31). -/
def pHttpLink : Rx :=
  .seq (.lit '[') (.seq (.group 1 (Rx.plus (Rx.noneOf "]")))
    (.seq (.lit ']') (.seq (.lit '(')
      (.seq (.group 2 (.seq (Rx.chrs "http") (.seq (Rx.opt (.lit 's'))
        (.seq (Rx.chrs "://") (Rx.plus (Rx.noneOf "/)"))))))
        (.seq (.lit '/') (.seq (Rx.star (Rx.noneOf ")")) (.lit ')')))))))

/-- The `ui_patterns` list (text_processor.py:34-48), applied with
`re.MULTILINE | re.IGNORECASE` and replacement `''`. -/
def uiPatterns : List Rx :=
  [ .seq (.lit '_') (.seq (Rx.star (Rx.noneOf "_")) (.seq (Rx.chrs "아이콘") (.lit '_'))),
    .seq (.lit '_') (.seq (Rx.star (Rx.noneOf "_")) (.seq (Rx.chrs "버튼") (.lit '_'))),
    .seq (.lit '_') (.seq (Rx.star (Rx.noneOf "_")) (.seq (Rx.chrs "링크") (.lit '_'))),
    .seq (Rx.chrs "로그인전") (.seq (Rx.star Rx.sSpace) (.seq (Rx.chrs "아이콘") (Rx.star Rx.sSpace))),
    .seq (Rx.star Rx.sSpace) (.seq (Rx.chrs "바로가기") (.seq (Rx.star Rx.sSpace) .eol)),
    .seq (Rx.star Rx.sSpace) (.seq (Rx.chrs "더보기") (.seq (Rx.star Rx.sSpace) .eol)),
    .seq (Rx.chrs "검색") (.seq (Rx.star Rx.sSpace) .eol),
    .seq (Rx.chrs "로그인") (.seq (Rx.star Rx.sSpace) .eol),
    .seq (Rx.chrs "본문") (.seq (Rx.star Rx.sSpace) (.seq (Rx.chrs "바로가기")
      (.seq (Rx.lazyStar .dot) (.seq (Rx.chrs "바로") (.seq (Rx.star Rx.sSpace) (Rx.chrs "가기")))))),
    .seq (Rx.star Rx.sSpace) (.seq (Rx.chrs "새창열림") (Rx.star Rx.sSpace)),
    .seq (Rx.star Rx.sSpace) (.seq (Rx.chrs "펼치기") (Rx.star Rx.sSpace)),
    .seq (.lit '"') (.seq (Rx.star (Rx.noneOf "\"")) (.seq (Rx.chrs "새창열림")
      (.seq (Rx.star (Rx.noneOf "\"")) (.lit '"')))),
    .seq (.lit '"') (.seq (Rx.star (Rx.noneOf "\"")) (.seq (Rx.chrs "펼치기")
      (.seq (Rx.star (Rx.noneOf "\"")) (.lit '"')))) ]

/-- `#{4,}` (text_processor.py:55). -/
def pHash4 : Rx := .rep (.lit '#') 4 Option.none false

/-- `^[\*\-_]{3,}\s*$` (text_processor.py:58). -/
def pSepLine : Rx :=
  .seq .bol (.seq (.rep (Rx.oneOf "*-_") 3 Option.none false)
    (.seq (Rx.star Rx.sSpace) .eol))

/-- `^\*\s*\*\s*\*\s*$` (text_processor.py:59). -/
def pStarLine : Rx :=
  .seq .bol (.seq (.lit '*') (.seq (Rx.star Rx.sSpace) (.seq (.lit '*')
    (.seq (Rx.star Rx.sSpace) (.seq (.lit '*') (.seq (Rx.star Rx.sSpace) .eol))))))

/-- `^(\s*)\*\s+` (text_processor.py:62). -/
def pListStar : Rx :=
  .seq .bol (.seq (.group 1 (Rx.star Rx.sSpace)) (.seq (.lit '*') (Rx.plus Rx.sSpace)))

/-- ` {2,}` (text_processor.py:66). -/
def pSpace2 : Rx := .rep (.lit ' ') 2 Option.none false

/-- ` +$` (text_processor.py:69). -/
def pTrailSpace : Rx := .seq (Rx.plus (.lit ' ')) .eol

/-- `\n{3,}` (text_processor.py:72,106). -/
def pNl3 : Rx := .rep (.lit '\n') 3 Option.none false

/-- `#\s*([^#]+?)#` (text_processor.py:94). -/
def pHashMid : Rx :=
  .seq (.lit '#') (.seq (Rx.star Rx.sSpace)
    (.seq (.group 1 (Rx.lazyPlus (Rx.noneOf "#"))) (.lit '#')))

/-- `#\s*([^#]+?)$` (text_processor.py:95). -/
def pHashEnd : Rx :=
  .seq (.lit '#') (.seq (Rx.star Rx.sSpace)
    (.seq (.group 1 (Rx.lazyPlus (Rx.noneOf "#"))) .eol))

def flagsMI : ReFlags := { multiline := true, icase := true }
def flagsM : ReFlags := { multiline := true }

/-- The per-line pass of `clean_crawled_text` (text_processor.py:78-97);
`Option.none` models `continue` (the line is dropped). -/
def cleanLine (line : String) : Option String :=
  let line := pyStrip line
  if line = "" then some ""
  else if line.length = 1 ∧ pyContains "#*-_" line then Option.none
  else if pyStartsWith line "* " ∧ line.length < 5 then Option.none
  else if pyContains line "#" ∧ ¬ pyStartsWith line "#" then
    let line := reSub {} pHashMid [.txt "# ", .grp 1, .txt " #"] line
    let line := reSub {} pHashEnd [.txt "# ", .grp 1] line
    some line
  else some line

/-- `clean_crawled_text` (text_processor.py:6-108). -/
def cleanCrawledText (text : String) : String :=
  if text = "" then ""
  else
    -- 1. escape cleanup (lines 20-21)
    let cleaned := pyReplace text "\\n" "\n"
    let cleaned := pyReplace cleaned "\\t" "\t"
    let cleaned := pyReplace cleaned "\\\"" "\""
    let cleaned := pyReplace cleaned "\\\x27" "\x27"
    let cleaned := reSub {} pEscParen [.grp 1] cleaned
    -- 2. link rewriting (lines 25-31)
    let cleaned := reSub {} pJsLink [.grp 1] cleaned
    let cleaned := reSub {} pAnchorLink [.grp 1] cleaned
    let cleaned := reSub {} pMailtoLink [.grp 1] cleaned
    let cleaned := reSub {} pHttpLink [.grp 1, .txt " (", .grp 2, .txt ")"] cleaned
    -- 3. UI chrome removal (lines 34-51)
    let cleaned := uiPatterns.foldl (fun acc p => reSub flagsMI p [] acc) cleaned
    -- 3. markdown and separators (lines 55-59)
    let cleaned := reSub {} pHash4 [.txt "###"] cleaned
    let cleaned := reSub flagsM pSepLine [] cleaned
    let cleaned := reSub flagsM pStarLine [] cleaned
    -- 4. list marker normalization (line 62)
    let cleaned := reSub flagsM pListStar [.grp 1, .txt "- "] cleaned
    -- 5. whitespace normalization (lines 66-72)
    let cleaned := reSub {} pSpace2 [.txt " "] cleaned
    let cleaned := reSub flagsM pTrailSpace [] cleaned
    let cleaned := reSub {} pNl3 [.txt "\n\n"] cleaned
    -- 6. per-line pass (lines 75-97)
    let improved := (pySplitNl cleaned).filterMap cleanLine
    -- 7. final cleanup (lines 100-106)
    let result := pyJoinNl improved
    let result := pyStrip result
    reSub {} pNl3 [.txt "\n\n"] result

def flagsMSI : ReFlags := { multiline := true, icase := true, dotall := true }

/-- The `major_navigation_blocks` list (text_processor.py:129-139), applied
with `re.DOTALL | re.MULTILINE | re.IGNORECASE` and replacement `''`. -/
def majorNavigationBlocks : List Rx :=
  [ .seq (Rx.chrs "**QUICK MENU**") (.seq (Rx.lazyStar .dot)
      (.look (.alt (Rx.chrs "##") (.alt (Rx.chrs "\n\n**") .eol)))),
    .seq (Rx.chrs "**인기메뉴**") (.seq (Rx.lazyStar .dot)
      (.look (.alt (Rx.chrs "##") (.alt (Rx.chrs "**kt") (.alt (Rx.chrs "\n\n") .eol))))),
    .seq (Rx.chrs "**![kt") (.seq (Rx.lazyStar .dot)
      (.look (.alt (Rx.chrs "##") (.alt (.seq .bol (.seq (.lit '*') Rx.sSpace)) .eol)))),
    .seq .bol (.seq (.lit '*') (.seq (Rx.plus Rx.sSpace) (.seq (Rx.chrs "Shop")
      (.seq (Rx.lazyStar .dot)
        (.look (.alt (Rx.chrs "##") (.alt (.seq .bol (.seq (.lit '*') (Rx.noneOf "*"))) .eol))))))),
    .seq .bol (.seq (.lit '*') (.seq (Rx.plus Rx.sSpace) (.seq (Rx.chrs "상품")
      (.seq (Rx.lazyStar .dot)
        (.look (.alt (Rx.chrs "##") (.alt (.seq .bol (.seq (.lit '*') (Rx.noneOf "*"))) .eol))))))),
    .seq .bol (.seq (.lit '*') (.seq (Rx.plus Rx.sSpace) (.seq (Rx.chrs "로밍")
      (.seq (Rx.lazyStar .dot)
        (.look (.alt (Rx.chrs "##") (.alt (.seq .bol (.seq (.lit '*') (Rx.noneOf "*"))) .eol))))))),
    .seq (Rx.chrs "Family Site") (.seq (Rx.lazyStar .dot) .eol),
    .seq (Rx.chrs "[그룹사 소개]") (.seq (Rx.lazyStar .dot) .eol),
    .seq (Rx.chrs "(주)케이티") (.seq (Rx.lazyStar .dot) (Rx.chrs "맨위로 스크롤")) ]

/-- The `detailed_patterns` list (text_processor.py:145-154), applied with
`re.MULTILINE | re.IGNORECASE` and replacement `''`. -/
def detailedPatterns : List Rx :=
  [ .seq (Rx.chrs "본문 바로가기") (.seq (Rx.lazyStar .dot) (Rx.chrs "바로 가기")),
    .seq (Rx.chrs "평일오전") (.seq (Rx.lazyStar .dot) (.seq (Rx.chrs "오후")
      (.seq (Rx.plus Rx.sDigit) (Rx.chrs "시")))),
    .seq (.rep Rx.sDigit 4 (some 4) false) (.seq (.lit '-')
      (.seq (.rep Rx.sDigit 4 (some 4) false) (.seq (Rx.star Rx.sSpace)
        (.seq (.lit '(') (.seq (Rx.lazyStar .dot) (.lit ')')))))),
    .seq (Rx.chrs "Copyright") (.seq (Rx.lazyStar .dot)
      (.seq (Rx.chrs "ALL RIGHTS RESERVED") (Rx.opt (.lit '.')))),
    .seq (Rx.chrs "COPYRIGHTⓒ") (.seq (Rx.lazyStar .dot)
      (.seq (Rx.chrs "ALL RIGHTS RESERVED") (Rx.opt (.lit '.')))),
    .seq (Rx.opt (.lit ';')) (.seq (.lit ')') .eol),
    .seq (Rx.chrs "http") (.seq (Rx.opt (.lit 's')) (.seq (Rx.chrs "://")
      (.seq (Rx.plus (.cls true [.single ' ', .single '\t', .single '\n',
        .single '\x0d', .single '\x0b', .single '\x0c', .single ')'])) (.lit ')')))),
    .seq (.lit '(') (.seq (Rx.star (Rx.noneOf ")")) (.seq (Rx.chrs "http")
      (.seq (Rx.opt (.lit 's')) (.seq (Rx.chrs "://")
        (.seq (Rx.star (Rx.noneOf ")")) (.lit ')')))))) ]

/-- `extract_main_content` (text_processor.py:110-160). -/
def extractMainContent (text : String) : String :=
  if text = "" then ""
  else
    let cleaned := majorNavigationBlocks.foldl
      (fun acc p => reSub flagsMSI p [] acc) text
    let cleaned := detailedPatterns.foldl
      (fun acc p => reSub flagsMI p [] acc) cleaned
    cleanCrawledText cleaned

/-- `[#\*\-]{2,}` (text_processor.py:180-181). -/
def pMd2 : Rx := .rep (Rx.oneOf "#*-") 2 Option.none false

/-- `_[^_]*_|아이콘|버튼` (text_processor.py:185-186). -/
def pUiBits : Rx :=
  .alt (.seq (.lit '_') (.seq (Rx.star (Rx.noneOf "_")) (.lit '_')))
    (.alt (Rx.chrs "아이콘") (Rx.chrs "버튼"))

/-- `get_processing_quality_score` (text_processor.py:162-196). -/
def getProcessingQualityScore (original cleaned : String) : ℚ :=
  if original = "" ∨ cleaned = "" then 0
  else
    let length_ratio : ℚ := (cleaned.length : ℚ) / (original.length : ℚ)
    let markdown_before := (reFindAll {} pMd2 original).length
    let markdown_after := (reFindAll {} pMd2 cleaned).length
    let markdown_reduction : ℚ :=
      ((markdown_before : ℤ) - markdown_after : ℤ) / (max markdown_before 1 : ℚ)
    let ui_before := (reFindAll {} pUiBits original).length
    let ui_after := (reFindAll {} pUiBits cleaned).length
    let ui_reduction : ℚ :=
      ((ui_before : ℤ) - ui_after : ℤ) / (max ui_before 1 : ℚ)
    let quality_score :=
      length_ratio * (4 / 10) + markdown_reduction * (3 / 10) +
        ui_reduction * (3 / 10)
    min (max quality_score 0) 1

/-- The six metadata keys `post_process_crawl_result` writes
(text_processor.py:221-228). -/
def postProcessingKeys : List String :=
  ["post_processing_applied", "original_text_length", "processed_text_length",
   "text_reduction_ratio", "processing_quality_score", "processing_timestamp"]

/-- `post_process_crawl_result` (text_processor.py:198-240).  `nowIso` is
the injected `datetime.now().isoformat()` string. -/
def postProcessCrawlResult (r : CrawlResult) (clean_text : Bool)
    (nowIso : String) : CrawlResult :=
  if ¬ clean_text ∨ r.text = "" then r
  else
    let original_text := r.text
    let cleaned_text := extractMainContent original_text
    let processing_quality := getProcessingQualityScore original_text cleaned_text
    let new_metadata := Dict.update r.metadata
      [("post_processing_applied", .bool true),
       ("original_text_length", .int original_text.length),
       ("processed_text_length", .int cleaned_text.length),
       ("text_reduction_ratio", .rat
         (if original_text ≠ "" then
           (cleaned_text.length : ℚ) / (original_text.length : ℚ) else 1)),
       ("processing_quality_score", .rat processing_quality),
       ("processing_timestamp", .str nowIso)]
    { url := r.url, title := r.title, text := cleaned_text
      hierarchy := r.hierarchy, metadata := new_metadata, status := r.status
      timestamp := r.timestamp, error := r.error }

/-! ## `backend/app/utils/natural_language_parser.py` -/

/-- The `content_type_patterns` dict (natural_language_parser.py:40-49),
in insertion order: content type ↦ synonym list. -/
def contentTypePatterns : List (String × List String) :=
  [("제목", ["제목", "타이틀", "title", "헤드라인", "headline"]),
   ("가격", ["가격", "price", "비용", "cost", "금액", "요금"]),
   ("본문", ["본문", "내용", "content", "글", "article", "텍스트", "text"]),
   ("리뷰", ["리뷰", "review", "후기", "평가", "댓글", "comment"]),
   ("요약", ["요약", "summary", "개요", "핵심", "정리"]),
   ("이미지", ["이미지", "image", "사진", "photo", "그림", "picture"]),
   ("링크", ["링크", "link", "url", "주소"]),
   ("날짜", ["날짜", "date", "시간", "time", "작성일"])]

/-- `http[s]?://(?:[a-zA-Z]|[0-9]|[$-_@.&+]|[!*\\(\\),]|(?:%[0-9a-fA-F][0-9a-fA-F]))+`
(natural_language_parser.py:52-54). -/
def urlPatternRx : Rx :=
  .seq (Rx.chrs "http") (.seq (Rx.opt (.lit 's')) (.seq (Rx.chrs "://")
    (Rx.plus
      (.alt (.cls false [.range 'a' 'z', .range 'A' 'Z'])
      (.alt (.cls false [.range '0' '9'])
      (.alt (.cls false [.range '$' '_', .single '@', .single '.',
        .single '&', .single '+'])
      (.alt (Rx.oneOf "!*\\(),")
      (.seq (.lit '%')
        (.seq (.cls false [.range '0' '9', .range 'a' 'f', .range 'A' 'F'])
          (.cls false [.range '0' '9', .range 'a' 'f', .range 'A' 'F']))))))))))

/-- `(?:www\.)?[a-zA-Z0-9](?:[a-zA-Z0-9-]{0,61}[a-zA-Z0-9])?(?:\.[a-zA-Z0-9](?:[a-zA-Z0-9-]{0,61}[a-zA-Z0-9])?)*\.[a-zA-Z]{2,}`
(natural_language_parser.py:57-59). -/
def nlDomainRx : Rx :=
  .seq (Rx.opt (Rx.chrs "www."))
    (.seq alnumRx (.seq (Rx.opt domainInnerRx)
      (.seq (Rx.star (.seq (.lit '.') (.seq alnumRx (Rx.opt domainInnerRx))))
        (.seq (.lit '.')
          (.rep (.cls false [.range 'a' 'z', .range 'A' 'Z']) 2 Option.none false)))))

/-- `list(set(urls))` (natural_language_parser.py:80).  CPython's set
iteration order is hash-dependent and unspecified; the embedding keeps the
first occurrence of each element, and no theorem depends on the order of
the output, only on its membership and length. -/
def pySetList (xs : List String) : List String := xs.dedup

/-- `NaturalLanguageParser.extract_urls` (natural_language_parser.py:61-80). -/
def extractUrls (text : String) : List String :=
  let full_urls := reFindAll {} urlPatternRx text
  let urls := full_urls ++
    ((reFindAll {} nlDomainRx text).filterMap fun domain =>
      if full_urls.any (fun url => pyContains url domain) then Option.none
      else
        let domain :=
          if ¬ pyStartsWith domain "www." then "www." ++ domain else domain
        some ("https://" ++ domain))
  pySetList urls

/-- `NaturalLanguageParser.detect_target_content`
(natural_language_parser.py:82-112). -/
def detectTargetContent (text : String) : String × ℚ :=
  let text_lower := pyLower text
  let step := fun (acc : String × ℚ) (ct : String × List String) =>
    let confidence : ℚ := ct.2.foldl
      (fun c kw =>
        if pyContains text_lower kw then
          if pyContains text_lower (kw ++ "만") ∨
             pyContains text_lower (kw ++ " 만") then max c (8 / 10)
          else max c (1 / 2)
        else c) 0
    let confidence :=
      if ct.1 = "제목" ∧
         (["추출", "가져", "뽑아"].any fun w => pyContains text_lower w) then
        min 1 (confidence + 2 / 10)
      else confidence
    if confidence > acc.2 then (ct.1, confidence) else acc
  let best := contentTypePatterns.foldl step ("전체", 0)
  (best.1, min 1 (max 0 best.2))

/-- `SelectiveCrawlingIntent` (natural_language_parser.py:9-16). -/
structure SelectiveCrawlingIntent where
  urls : List String
  target_content : String
  raw_request : String
  confidence : ℚ
  extraction_type : String
  deriving DecidableEq

/-- `NaturalLanguageParser.parse_selective_request`
(natural_language_parser.py:114-138). -/
def parseSelectiveRequest (text : String) : SelectiveCrawlingIntent :=
  let urls := extractUrls text
  let tc := detectTargetContent text
  { urls := urls, target_content := tc.1, raw_request := text
    confidence := tc.2
    extraction_type :=
      if urls ≠ [] ∧ tc.1 ≠ "전체" then "selective" else "full" }

/-- `UnifiedIntent` (natural_language_parser.py:19-33).  `target_content`
is a `Value` because `_analyze_bulk_selective_intent` stores a *list*
there (it iterates `content_type_patterns.items()` binding the synonym
list to `content_type`). -/
structure UnifiedIntent where
  request_type : String
  urls : List String
  target_content : Option Value := Option.none
  search_query : Option String := Option.none
  platform : Option String := Option.none
  confidence : ℚ := 0
  raw_request : String := ""
  metadata : Dict := []

/-- The search-verb keywords (natural_language_parser.py:192). -/
def searchKeywords : List String := ["찾아줘", "검색", "찾기", "알아봐"]

/-- The platform keywords (natural_language_parser.py:193). -/
def platformKeywords : List String := ["쿠팡", "네이버", "구글", "아마존"]

/-- `any(keyword in text for keyword in self.content_type_patterns.keys())`
(natural_language_parser.py:191): only the eight top-level keys are
consulted, not their synonym lists. -/
def hasExtractionKeywords (text : String) : Bool :=
  contentTypePatterns.any fun ct => pyContains text ct.1

def hasSearchKeywords (text : String) : Bool :=
  searchKeywords.any fun kw => pyContains text kw

def hasPlatformKeywords (text : String) : Bool :=
  platformKeywords.any fun kw => pyContains text kw

/-- The `search_patterns` of `_analyze_search_intent`
(natural_language_parser.py:275-279). -/
def searchPatterns : List Rx :=
  [ .seq (Rx.chrs "에서") (.seq (Rx.plus Rx.sSpace)
      (.seq (.group 1 (Rx.lazyPlus .dot)) (.seq (Rx.plus Rx.sSpace) (Rx.chrs "찾아줘")))),
    .seq (Rx.chrs "에서") (.seq (Rx.plus Rx.sSpace)
      (.seq (.group 1 (Rx.lazyPlus .dot)) (.seq (Rx.plus Rx.sSpace) (Rx.chrs "검색")))),
    .seq (.group 1 (Rx.lazyPlus .dot)) (.seq (Rx.plus Rx.sSpace)
      (.seq (Rx.chrs "정보") (.seq (Rx.plus Rx.sSpace) (Rx.chrs "찾아줘")))) ]

/-- `NaturalLanguageParser._analyze_search_intent`
(natural_language_parser.py:258-299). -/
def analyzeSearchIntent (text : String) : UnifiedIntent :=
  let detected_platform := platformKeywords.find? fun p =>
    reTest { icase := true } (Rx.chrs p) text
  let search_query := (searchPatterns.findSome? fun p =>
    reSearchGroup1 {} p text).map pyStrip
  { request_type := "search", urls := []
    search_query := search_query, platform := detected_platform
    confidence :=
      if detected_platform.isSome ∧ search_query.isSome then 7 / 10 else 3 / 10
    raw_request := text
    metadata := [("processing_type", .str "platform_search"),
                 ("requires_implementation", .bool true)] }

/-- `NaturalLanguageParser._analyze_selective_intent`
(natural_language_parser.py:241-256). -/
def analyzeSelectiveIntent (text : String) (urls : List String) :
    UnifiedIntent :=
  let selective_intent := parseSelectiveRequest text
  { request_type := "selective", urls := urls
    target_content := some (.str selective_intent.target_content)
    confidence := selective_intent.confidence
    raw_request := text
    metadata := [("extraction_type", .str selective_intent.extraction_type),
                 ("processing_type", .str "selective_crawl")] }

/-- `NaturalLanguageParser._analyze_bulk_selective_intent`
(natural_language_parser.py:301-324); `keyword` ranges over the dict keys
and `content_type` over the synonym lists. -/
def analyzeBulkSelectiveIntent (text : String) (urls : List String) :
    UnifiedIntent :=
  let hit := contentTypePatterns.find? fun ct => pyContains text ct.1
  let target_content := hit.map fun ct => Value.list (ct.2.map .str)
  let confidence : ℚ := if hit.isSome then 6 / 10 + 2 / 10 else 6 / 10
  { request_type := "bulk_selective", urls := urls
    target_content := target_content
    confidence := min confidence 1
    raw_request := text
    metadata := [("processing_type", .str "bulk_selective_crawl"),
                 ("url_count", .int urls.length),
                 ("requires_implementation", .bool true)] }

/-- `NaturalLanguageParser.analyze_unified_intent`
(natural_language_parser.py:174-239). -/
def analyzeUnifiedIntent (text : String) : UnifiedIntent :=
  let urls := extractUrls text
  let url_count := urls.length
  let has_extraction_keywords := hasExtractionKeywords text
  let has_search_keywords := hasSearchKeywords text
  let has_platform_keywords := hasPlatformKeywords text
  if url_count = 0 then
    if has_platform_keywords ∧ has_search_keywords then
      analyzeSearchIntent text
    else
      { request_type := "invalid", urls := [], confidence := 0
        raw_request := text
        metadata := [("error", .str "URL 또는 검색 의도를 찾을 수 없습니다")] }
  else if url_count = 1 then
    if has_extraction_keywords then analyzeSelectiveIntent text urls
    else
      { request_type := "single", urls := urls, confidence := 9 / 10
        raw_request := text
        metadata := [("processing_type", .str "full_crawl")] }
  else
    if has_extraction_keywords then analyzeBulkSelectiveIntent text urls
    else
      { request_type := "bulk", urls := urls, confidence := 8 / 10
        raw_request := text
        metadata := [("processing_type", .str "bulk_crawl"),
                     ("url_count", .int url_count)] }

/-! ## `backend/app/api/routes.py`: the bulk job id -/

/-- A `datetime.now()` reading, at CPython's microsecond resolution. -/
structure PyDateTime where
  year : Nat
  month : Nat
  day : Nat
  hour : Nat
  minute : Nat
  second : Nat
  microsecond : Nat
  deriving DecidableEq

def PyDateTime.valid (t : PyDateTime) : Prop :=
  1 ≤ t.year ∧ t.year ≤ 9999 ∧ 1 ≤ t.month ∧ t.month ≤ 12 ∧
  1 ≤ t.day ∧ t.day ≤ 31 ∧ t.hour ≤ 23 ∧ t.minute ≤ 59 ∧
  t.second ≤ 59 ∧ t.microsecond ≤ 999999

instance (t : PyDateTime) : Decidable t.valid := by
  unfold PyDateTime.valid; infer_instance

/-- The instant truncated to whole seconds — exactly the information
`strftime('%Y%m%d_%H%M%S')` prints. -/
def PyDateTime.toSecondsTuple (t : PyDateTime) :
    Nat × Nat × Nat × Nat × Nat × Nat :=
  (t.year, t.month, t.day, t.hour, t.minute, t.second)

def digitChar (d : Nat) : Char := Char.ofNat (48 + d)

/-- Zero-padded two-digit decimal, as `strftime` prints `%m %d %H %M %S`
for their in-range values. -/
def pad2 (n : Nat) : String := ⟨[digitChar (n / 10 % 10), digitChar (n % 10)]⟩

/-- Zero-padded four-digit decimal, as `strftime` prints `%Y` for years
below 10000. -/
def pad4 (n : Nat) : String :=
  ⟨[digitChar (n / 1000 % 10), digitChar (n / 100 % 10),
    digitChar (n / 10 % 10), digitChar (n % 10)]⟩

/-- `datetime.now().strftime('%Y%m%d_%H%M%S')` (routes.py:268). -/
def strftimeJobFmt (t : PyDateTime) : String :=
  pad4 t.year ++ pad2 t.month ++ pad2 t.day ++ "_" ++
    pad2 t.hour ++ pad2 t.minute ++ pad2 t.second

/-- `job_id = f"bulk_{datetime.now().strftime('%Y%m%d_%H%M%S')}"`
(routes.py:268). -/
def bulkJobId (t : PyDateTime) : String := "bulk_" ++ strftimeJobFmt t

/-- The job entry `crawl_bulk_urls` stores under `active_jobs[job_id]`
(routes.py:273-281); `start` is the second `datetime.now()` reading,
carried as its formatted second-tuple string. -/
def bulkJobInitEntry (total_urls : Nat) (start : PyDateTime) : Value :=
  .dict [("status", .str "started"), ("total_urls", .int total_urls),
         ("completed", .int 0), ("success", .int 0), ("failed", .int 0),
         ("start_time", .str (strftimeJobFmt start)), ("progress", .int 0)]

/-- Accepting a bulk job: `active_jobs[job_id] = {...}` (routes.py:273). -/
def acceptBulkJob (store : Dict) (t : PyDateTime) (total_urls : Nat) : Dict :=
  Dict.set store (bulkJobId t) (bulkJobInitEntry total_urls t)

/-! ## Claim-side definitions -/

/-- The `CrawlResult` invariant of the spec (§3, §8): `failed` iff the
error field is set, a failed result has empty text/title/hierarchy, and a
complete result carries no error. -/
def resultInvariant (r : CrawlResult) : Prop :=
  (r.status = "failed" ↔ r.error ≠ Option.none) ∧
  (r.status = "failed" → r.text = "" ∧ r.title = "" ∧ r.hierarchy = []) ∧
  (r.status = "complete" → r.error = Option.none)

/-- The keyword test as the claim words it: some member of the fixed
vocabulary *including each keyword's synonyms* occurs in the text.  (The
synonym lists come from the source's `content_type_patterns` values and
contain the Korean top-level names themselves.) -/
def claimKeywordOccurs (text : String) : Bool :=
  contentTypePatterns.any fun ct => ct.2.any fun kw => pyContains text kw

/-! ## Dictionary lemmas -/

theorem dict_find_none {k : String} :
    ∀ d : Dict, d.any (fun kv => kv.1 = k) = false →
      List.find? (fun kv => kv.1 = k) d = Option.none := by
  intro d h
  induction d with
  | nil => rfl
  | cons p d ih =>
    simp only [List.any_cons, Bool.or_eq_false_iff, decide_eq_false_iff_not] at h
    rw [List.find?_cons_of_neg _ (by simpa using h.1)]
    exact ih (by simpa using h.2)

theorem dict_find_append_right_none {p : String × Value → Bool}
    {l₂ : List (String × Value)} (h : l₂.find? p = Option.none) :
    ∀ l₁ : List (String × Value), (l₁ ++ l₂).find? p = l₁.find? p := by
  intro l₁
  induction l₁ with
  | nil => simpa using h
  | cons q l₁ ih =>
    by_cases hq : p q = true
    · rw [List.cons_append, List.find?_cons_of_pos _ hq,
        List.find?_cons_of_pos _ hq]
    · rw [List.cons_append, List.find?_cons_of_neg _ hq,
        List.find?_cons_of_neg _ hq]
      exact ih

theorem dict_find_append_left_none {p : String × Value → Bool}
    {l₁ l₂ : List (String × Value)} (h : l₁.find? p = Option.none) :
    (l₁ ++ l₂).find? p = l₂.find? p := by
  induction l₁ with
  | nil => rfl
  | cons q l₁ ih =>
    have hq : ¬ p q = true := by
      intro hq
      rw [List.find?_cons_of_pos _ hq] at h
      exact Option.noConfusion h
    rw [List.find?_cons_of_neg _ hq] at h
    rw [List.cons_append, List.find?_cons_of_neg _ hq]
    exact ih h

theorem dict_find_map_set {k : String} {v : Value} :
    ∀ d : Dict, d.any (fun kv => kv.1 = k) = true →
      List.find? (fun kv => kv.1 = k)
        (d.map fun kv => if kv.1 = k then (k, v) else kv) = some (k, v) := by
  intro d h
  induction d with
  | nil => simp at h
  | cons p d ih =>
    by_cases hp : p.1 = k
    · rw [List.map_cons, if_pos hp, List.find?_cons_of_pos _ (by simp)]
    · rw [List.map_cons, if_neg hp, List.find?_cons_of_neg _ (by simp [hp])]
      refine ih ?_
      simp only [List.any_cons, Bool.or_eq_true] at h
      rcases h with h1 | h2
      · exact absurd (by simpa using h1) hp
      · exact h2

theorem dict_find_map_ne {k k' : String} {v : Value} (h : k' ≠ k) :
    ∀ d : Dict,
      List.find? (fun kv => kv.1 = k')
        (d.map fun kv => if kv.1 = k then (k, v) else kv) =
      List.find? (fun kv => kv.1 = k') d := by
  intro d
  induction d with
  | nil => rfl
  | cons p d ih =>
    by_cases hp : p.1 = k
    · have hne : ¬ p.1 = k' := by rw [hp]; exact fun hh => h hh.symm
      rw [List.map_cons, if_pos hp,
        List.find?_cons_of_neg _ (by simp; exact fun hh => h hh.symm),
        List.find?_cons_of_neg _ (by simpa using hne)]
      exact ih
    · rw [List.map_cons, if_neg hp]
      by_cases hpk : p.1 = k'
      · rw [List.find?_cons_of_pos _ (by simpa using hpk),
          List.find?_cons_of_pos _ (by simpa using hpk)]
      · rw [List.find?_cons_of_neg _ (by simpa using hpk),
          List.find?_cons_of_neg _ (by simpa using hpk)]
        exact ih

theorem Dict.get_set_self (d : Dict) (k : String) (v : Value) :
    (d.set k v).get k = some v := by
  unfold Dict.set Dict.get
  by_cases h : d.any (fun kv => kv.1 = k) = true
  · rw [if_pos h, dict_find_map_set d h]
    rfl
  · have hfalse : d.any (fun kv => kv.1 = k) = false := by
      revert h
      cases d.any (fun kv => kv.1 = k) <;> simp
    rw [if_neg h, dict_find_append_left_none (dict_find_none d hfalse),
      List.find?_cons_of_pos _ (by simp)]
    rfl

theorem Dict.get_set_ne (d : Dict) (k k' : String) (v : Value)
    (h : k' ≠ k) : (d.set k v).get k' = d.get k' := by
  unfold Dict.set Dict.get
  by_cases hany : d.any (fun kv => kv.1 = k) = true
  · rw [if_pos hany, dict_find_map_ne h]
  · have hsingle : List.find? (fun kv => kv.1 = k') [(k, v)] = Option.none := by
      rw [List.find?_cons_of_neg _ (by simp; exact fun hh => h hh.symm)]
      rfl
    rw [if_neg hany, dict_find_append_right_none hsingle]

theorem Dict.mem_keys_set (d : Dict) (k k' : String) (v : Value)
    (h : k' ∈ d.keys) : k' ∈ (d.set k v).keys := by
  unfold Dict.keys at h
  rw [List.mem_map] at h
  obtain ⟨p, hp, hpk⟩ := h
  unfold Dict.set Dict.keys
  by_cases hany : d.any (fun kv => kv.1 = k) = true
  · rw [if_pos hany, List.map_map, List.mem_map]
    refine ⟨p, hp, ?_⟩
    by_cases hpk2 : p.1 = k
    · show (if p.1 = k then ((k, v) : String × Value) else p).1 = k'
      rw [if_pos hpk2, ← hpk, hpk2]
    · show (if p.1 = k then ((k, v) : String × Value) else p).1 = k'
      rw [if_neg hpk2]
      exact hpk
  · rw [if_neg hany, List.map_append, List.mem_append]
    exact Or.inl (List.mem_map.mpr ⟨p, hp, hpk⟩)

theorem Dict.get_update_notin (e : List (String × Value)) (d : Dict)
    (k : String) (h : ∀ p ∈ e, p.1 ≠ k) :
    (d.update e).get k = d.get k := by
  induction e generalizing d with
  | nil => rfl
  | cons p e ih =>
    unfold Dict.update
    simp only [List.foldl_cons]
    rw [show (List.foldl (fun acc kv => Dict.set acc kv.1 kv.2) (d.set p.1 p.2) e)
        = Dict.update (d.set p.1 p.2) e from rfl]
    rw [ih (d.set p.1 p.2) fun q hq => h q (List.mem_cons_of_mem _ hq)]
    exact Dict.get_set_ne d p.1 k p.2 fun hk =>
      h p (List.mem_cons_self _ _) hk.symm

theorem Dict.mem_keys_update (e : List (String × Value)) (d : Dict)
    (k : String) (h : k ∈ d.keys) : k ∈ (d.update e).keys := by
  induction e generalizing d with
  | nil => exact h
  | cons p e ih =>
    unfold Dict.update
    simp only [List.foldl_cons]
    exact ih (d.set p.1 p.2) (Dict.mem_keys_set d p.1 k p.2 h)

/-! ## The retry loop -/

/-- Under an all-transient oracle the retry loop runs to exhaustion:
one `crawl` call per remaining iteration, an exponential back-off sleep
after every attempt but the last, and the constructed failure result. -/
theorem crawlWithRetryLoop_transient (name url : String)
    (strategy : CrawlStrategy) (msg : Nat → String) (now : ℚ)
    (hperm : ∀ i, isPermanentError (msg i) = false) :
    ∀ (remaining attempt made : Nat) (sleeps : List ℚ)
      (lastErr : Option String),
      attempt + remaining = strategy.max_retries.toNat →
      crawlWithRetryLoop name url (fun i => .error (msg i)) strategy now
          remaining attempt made sleeps lastErr =
        { result := retryFailureResult name url
            (if remaining = 0 then lastErr else some (msg (attempt + remaining - 1))) now
          attempts := made + remaining
          sleeps := sleeps ++ (List.range' attempt (remaining - 1)).map
            (fun i => strategy.wait_time * 2 ^ i)
          statCalls := [(false, 0)] } := by
  intro remaining
  induction remaining with
  | zero =>
    intro attempt made sleeps lastErr _
    simp [crawlWithRetryLoop]
  | succ r ih =>
    intro attempt made sleeps lastErr hsum
    have hM : 1 ≤ strategy.max_retries := by
      have : 1 ≤ strategy.max_retries.toNat := by omega
      omega
    simp only [crawlWithRetryLoop, hperm attempt, Bool.false_eq_true,
      if_false]
    rcases Nat.eq_zero_or_pos r with hr | hr
    · subst hr
      have hcond : ¬ ((attempt : Int) < strategy.max_retries - 1) := by
        have h1 : strategy.max_retries.toNat = attempt + 1 := by omega
        have h2 : strategy.max_retries = (attempt : Int) + 1 := by omega
        omega
      rw [if_neg hcond, ih (attempt + 1) (made + 1) sleeps (some (msg attempt))
        (by omega)]
      simp
    · have hcond : (attempt : Int) < strategy.max_retries - 1 := by
        have h2 : strategy.max_retries = ((attempt + r + 1 : Nat) : Int) := by
          omega
        omega
      rw [if_pos hcond, ih (attempt + 1) (made + 1)
        (sleeps ++ [strategy.wait_time * 2 ^ attempt]) (some (msg attempt))
        (by omega)]
      have hrange : List.range' attempt (r + 1 - 1) =
          attempt :: List.range' (attempt + 1) (r - 1) := by
        have : r + 1 - 1 = (r - 1) + 1 := by omega
        rw [this, List.range'_succ]
      have hne : ¬ (r + 1 = 0) := by omega
      simp only [if_neg hne, if_neg (by omega : ¬ (r = 0)), hrange,
        List.map_cons, List.append_assoc, List.singleton_append]
      have e1 : attempt + 1 + r - 1 = attempt + (r + 1) - 1 := by omega
      have e2 : made + 1 + r = made + (r + 1) := by omega
      rw [e1, e2]

/-- The result of `crawl_with_retry` is either some engine-returned result
(from a successful `crawl` call of the oracle) or the loop's own
constructed failure result. -/
theorem crawlWithRetryLoop_result_cases (name url : String)
    (crawlFn : CrawlOracle) (strategy : CrawlStrategy) (now : ℚ) :
    ∀ (remaining attempt made : Nat) (sleeps : List ℚ)
      (lastErr : Option String),
      (∃ i r dt, crawlFn i = .ok (r, dt) ∧
        (crawlWithRetryLoop name url crawlFn strategy now remaining attempt
          made sleeps lastErr).result = r) ∨
      (∃ le, (crawlWithRetryLoop name url crawlFn strategy now remaining
          attempt made sleeps lastErr).result =
        retryFailureResult name url le now) := by
  intro remaining
  induction remaining with
  | zero =>
    intro attempt made sleeps lastErr
    exact Or.inr ⟨lastErr, by simp [crawlWithRetryLoop]⟩
  | succ r ih =>
    intro attempt made sleeps lastErr
    cases hfn : crawlFn attempt with
    | ok p =>
      refine Or.inl ⟨attempt, p.1, p.2, by rw [hfn], ?_⟩
      simp [crawlWithRetryLoop, hfn]
    | error e =>
      by_cases hp : isPermanentError e = true
      · refine Or.inr ⟨some e, ?_⟩
        simp [crawlWithRetryLoop, hfn, hp]
      · by_cases hc : (attempt : Int) < strategy.max_retries - 1
        · rcases ih (attempt + 1) (made + 1)
            (sleeps ++ [strategy.wait_time * 2 ^ attempt]) (some e) with
            ⟨i, r', dt, hi, hres⟩ | ⟨le, hres⟩
          · refine Or.inl ⟨i, r', dt, hi, ?_⟩
            simp only [crawlWithRetryLoop, hfn, hp, Bool.false_eq_true,
              if_false, if_pos hc]
            exact hres
          · refine Or.inr ⟨le, ?_⟩
            simp only [crawlWithRetryLoop, hfn, hp, Bool.false_eq_true,
              if_false, if_pos hc]
            exact hres
        · rcases ih (attempt + 1) (made + 1) sleeps (some e) with
            ⟨i, r', dt, hi, hres⟩ | ⟨le, hres⟩
          · refine Or.inl ⟨i, r', dt, hi, ?_⟩
            simp only [crawlWithRetryLoop, hfn, hp, Bool.false_eq_true,
              if_false, if_neg hc]
            exact hres
          · refine Or.inr ⟨le, ?_⟩
            simp only [crawlWithRetryLoop, hfn, hp, Bool.false_eq_true,
              if_false, if_neg hc]
            exact hres

/-! ## The claims -/

/-- C1.  For every engine, URL and strategy with `max_retries ≥ 1`:
(a) when `crawl` raises an exception whose lowercased message contains a
permanent-failure substring, `crawl_with_retry` performs exactly one
`crawl` attempt, never sleeps, and returns a failed `CrawlResult` carrying
that error; (b) when every raised message contains no such substring, it
sleeps `wait_time · 2^attempt` between consecutive attempts, performs
exactly `max_retries` attempts, and after exhaustion returns a failed
`CrawlResult` carrying the last error — it never propagates an exception
(the embedding is a total function into `RetryOutcome`). -/
theorem c1_retry_policy :
    (∀ (name url : String) (strategy : CrawlStrategy)
      (crawlFn : CrawlOracle) (e : String) (now : ℚ),
      1 ≤ strategy.max_retries →
      crawlFn 0 = .error e →
      isPermanentError e = true →
      (crawlWithRetry name url crawlFn strategy now).attempts = 1 ∧
      (crawlWithRetry name url crawlFn strategy now).sleeps = [] ∧
      (crawlWithRetry name url crawlFn strategy now).result.status
        = "failed" ∧
      (crawlWithRetry name url crawlFn strategy now).result.error
        = some e) ∧
    (∀ (name url : String) (strategy : CrawlStrategy) (msg : Nat → String)
      (now : ℚ),
      1 ≤ strategy.max_retries →
      (∀ i, isPermanentError (msg i) = false) →
      (crawlWithRetry name url (fun i => .error (msg i)) strategy now).attempts
        = strategy.max_retries.toNat ∧
      (crawlWithRetry name url (fun i => .error (msg i)) strategy now).sleeps
        = (List.range (strategy.max_retries.toNat - 1)).map
            (fun i => strategy.wait_time * 2 ^ i) ∧
      (crawlWithRetry name url (fun i => .error (msg i)) strategy now).result.status
        = "failed" ∧
      (crawlWithRetry name url (fun i => .error (msg i)) strategy now).result.error
        = some (msg (strategy.max_retries.toNat - 1))) := by
  constructor
  · intro name url strategy crawlFn e now hmr h0 hperm
    obtain ⟨m, hm⟩ : ∃ m, strategy.max_retries.toNat = m + 1 :=
      ⟨strategy.max_retries.toNat - 1, by omega⟩
    unfold crawlWithRetry
    rw [hm]
    simp [crawlWithRetryLoop, h0, hperm, retryFailureResult, pyStrOpt]
  · intro name url strategy msg now hmr hperm
    unfold crawlWithRetry
    rw [crawlWithRetryLoop_transient name url strategy msg now hperm
      strategy.max_retries.toNat 0 0 [] Option.none (Nat.zero_add _)]
    have hne : ¬ (strategy.max_retries.toNat = 0) := by omega
    have hne2 : ¬ (strategy.max_retries ≤ 0) := by omega
    simp [if_neg hne, hne2, retryFailureResult, pyStrOpt, List.range_eq_range']

/-- C2 (code bug).  The inter-chunk activity-timeout break of
`_read_response_with_activity_timeout` can never fire: the code sets
`last_chunk_time` to the current instant and immediately compares
`time.time() - last_chunk_time` against `activity_timeout` in the same
iteration (with no `await` in between), so the compared gap is zero; while
the server stalls, the coroutine sits inside `async for` where none of the
checks run.  Against a server that sends one chunk and then stalls
forever, the read loop therefore consumes the whole stream without ever
aborting on chunk silence — it does not abort within `[2, 4]` seconds as
the claim requires. -/
theorem c2_activity_gap_never_fires
    (activity_timeout max_total_time start_time : ℚ)
    (h : 0 ≤ activity_timeout) :
    (∀ (stream : List (ℚ × String)) (acc : List String),
      (readResponseLoop activity_timeout max_total_time start_time stream
        acc).stop ≠ ReadStop.activityGap) ∧
    (readResponseWithActivityTimeout 2 60 0 [(0, "x")] =
      { chunks := ["x"], stop := ReadStop.finishedIter }) := by
  constructor
  · intro stream
    induction stream with
    | nil =>
      intro acc hc
      exact ReadStop.noConfusion
        (show ReadStop.finishedIter = ReadStop.activityGap from hc)
    | cons p rest ih =>
      intro acc
      obtain ⟨t, chunk⟩ := p
      simp only [readResponseLoop]
      by_cases hc : chunk = ""
      · simp [hc]
      · rw [if_neg hc]
        by_cases ht : t - start_time > max_total_time
        · simp [ht]
        · rw [if_neg ht]
          have hgap : ¬ (t - t > activity_timeout) := by
            simp only [sub_self]
            exact fun hlt => absurd h (not_le.mpr hlt)
          rw [if_neg hgap]
          exact ih _
  · norm_num [readResponseWithActivityTimeout, readResponseLoop]
    decide

/-- C6 (corrected).  The automatic path of `crawl_with_strategy` always
builds its `CrawlStrategy` with `timeout = 30`, whatever the analysed
site-type recommends; the per-type table — `complex_spa` 60,
`anti_bot_heavy` 60, `ai_analysis_needed` 45, `standard_dynamic` 40,
`simple_static` 30 — lives only in `get_strategy_config`, which
`crawl_with_strategy` never invokes. -/
theorem c6_amended :
    (∀ (engines : List String) (cs : AnalysisStrategy),
      (autoStrategy engines cs).timeout = 30) ∧
    (∀ engines : List String,
      (getStrategyConfig engines "complex_spa").timeout = 60 ∧
      (getStrategyConfig engines "anti_bot_heavy").timeout = 60 ∧
      (getStrategyConfig engines "ai_analysis_needed").timeout = 45 ∧
      (getStrategyConfig engines "standard_dynamic").timeout = 40 ∧
      (getStrategyConfig engines "simple_static").timeout = 30) :=
  ⟨fun _ _ => rfl, fun _ => ⟨rfl, rfl, rfl, rfl, rfl⟩⟩

/-- C6, counterexample.  For the `complex_spa` recommendation (primary
`crawl4ai`, fallbacks `firecrawl, playwright, requests`) with every engine
registered, the automatic path produces `timeout = 30`, not the claimed
60. -/
theorem c6_counterexample :
    (autoStrategy ["requests", "firecrawl", "crawl4ai", "playwright"]
      { recommended_engine := some "crawl4ai"
        fallback_engines := some ["firecrawl", "playwright", "requests"] }).timeout
      = 30 ∧ (30 : Int) ≠ 60 :=
  ⟨rfl, by decide⟩

/-- C9.  When the first `crawl` attempt returns a `CrawlResult` without
raising — even one with `status = "failed"` — `crawl_with_retry` returns
that result unchanged after exactly one attempt, performs no
permanent/transient classification and no back-off sleep, and its single
`_update_stats` call records the request as successful (incrementing
`successful_requests`). -/
theorem c9_failed_result_passthrough
    (name url : String) (strategy : CrawlStrategy) (crawlFn : CrawlOracle)
    (now dt : ℚ) (r : CrawlResult)
    (hmr : 1 ≤ strategy.max_retries)
    (h0 : crawlFn 0 = .ok (r, dt))
    (hst : r.status = "failed") :
    (crawlWithRetry name url crawlFn strategy now).result = r ∧
    (crawlWithRetry name url crawlFn strategy now).attempts = 1 ∧
    (crawlWithRetry name url crawlFn strategy now).sleeps = [] ∧
    (crawlWithRetry name url crawlFn strategy now).statCalls = [(true, dt)] ∧
    (∀ st : EngineStats,
      (updateStats st true dt).successful_requests
        = st.successful_requests + 1 ∧
      (updateStats st true dt).failed_requests = st.failed_requests) := by
  obtain ⟨m, hm⟩ : ∃ m, strategy.max_retries.toNat = m + 1 :=
    ⟨strategy.max_retries.toNat - 1, by omega⟩
  unfold crawlWithRetry
  rw [hm]
  refine ⟨?_, ?_, ?_, ?_, fun st => ⟨by simp [updateStats], by simp [updateStats]⟩⟩ <;>
    simp [crawlWithRetryLoop, h0]

/-- The engine loop records every visited engine name in `attempted`
before checking registry membership, so a failed exhaustion carries the
whole remaining priority list. -/
theorem engineLoopGo_failed (env : OrchestratorEnv) (url : String)
    (total : Nat) :
    ∀ (names : List String) (i : Nat) (attempted : List String)
      (lastErr : Option String),
      (engineLoopGo env url total names i attempted lastErr).status
        = "failed" →
      (engineLoopGo env url total names i attempted lastErr).metadata.get
          "attempted_engines"
        = some (.list ((attempted ++ names).map .str)) := by
  intro names
  induction names with
  | nil =>
    intro i attempted lastErr _
    rw [List.append_nil]
    rfl
  | cons name rest ih =>
    intro i attempted lastErr h
    have hassoc : attempted ++ name :: rest = (attempted ++ [name]) ++ rest := by
      simp
    rw [hassoc]
    by_cases hreg : env.registry.contains name
    · simp only [engineLoopGo, hreg, not_true, if_false] at h ⊢
      cases hrun : env.run name with
      | error e =>
        rw [hrun] at h
        exact ih (i + 1) (attempted ++ [name]) (some e) h
      | ok p =>
        obtain ⟨res, dt⟩ := p
        rw [hrun] at h
        have h2 : (if res.status = "complete" then
            enrichSuccess env res name (attempted ++ [name]) i total dt
          else engineLoopGo env url total rest (i + 1)
            (attempted ++ [name]) res.error).status = "failed" := h
        by_cases hst : res.status = "complete"
        · rw [if_pos hst] at h2
          have hsame : (enrichSuccess env res name (attempted ++ [name]) i
              total dt).status = res.status := rfl
          rw [hsame, hst] at h2
          exact absurd h2 (by decide)
        · show (if res.status = "complete" then
                enrichSuccess env res name (attempted ++ [name]) i total dt
              else engineLoopGo env url total rest (i + 1)
                (attempted ++ [name]) res.error).metadata.get
              "attempted_engines" = _
          rw [if_neg hst]
          rw [if_neg hst] at h2
          exact ih (i + 1) (attempted ++ [name]) res.error h2
    · simp only [engineLoopGo, hreg] at h ⊢
      rw [if_pos (by simp [hreg])] at h ⊢
      exact ih (i + 1) (attempted ++ [name]) lastErr h

/-- C3 (corrected).  Whenever `crawl_with_strategy` returns a failed
`CrawlResult` after trying engines, `metadata["attempted_engines"]` equals
the *entire* `engine_priority` of the strategy in order — including names
absent from the engine registry, which are skipped with a warning for
execution but still recorded, because the loop appends each name before
the registry check. -/
theorem c3_amended (env : OrchestratorEnv) (url : String)
    (custom : Option CrawlStrategy) (analysisVal : Value)
    (autoCS : AnalysisStrategy) (r : CrawlResult)
    (hok : crawlWithStrategy true env url custom analysisVal autoCS = .ok r)
    (hfail : r.status = "failed")
    (hvalid : (validateUrl url).1 = true) :
    r.metadata.get "attempted_engines" =
      some (.list ((match custom with
        | some s => s
        | Option.none =>
          autoStrategy env.registry autoCS).engine_priority.map .str)) := by
  cases custom with
  | some s =>
    have hloop : crawlWithStrategy true env url (some s) analysisVal autoCS =
        .ok (engineLoop { env with analysis := Option.none } url
          s.engine_priority) := by
      unfold crawlWithStrategy
      rw [if_neg (by simp), if_neg (by simp [hvalid])]
    rw [hloop] at hok
    have hr := Except.ok.inj hok
    rw [← hr] at hfail ⊢
    simpa using engineLoopGo_failed { env with analysis := Option.none } url
      s.engine_priority.length s.engine_priority 1 [] Option.none hfail
  | none =>
    have hloop : crawlWithStrategy true env url Option.none analysisVal
        autoCS =
        .ok (engineLoop { env with analysis := some analysisVal } url
          (autoStrategy env.registry autoCS).engine_priority) := by
      unfold crawlWithStrategy
      rw [if_neg (by simp), if_neg (by simp [hvalid])]
    rw [hloop] at hok
    have hr := Except.ok.inj hok
    rw [← hr] at hfail ⊢
    simpa using engineLoopGo_failed { env with analysis := some analysisVal }
      url (autoStrategy env.registry autoCS).engine_priority.length
      (autoStrategy env.registry autoCS).engine_priority 1 [] Option.none
      hfail

/-- C3, counterexample.  With the single engine `requests` registered and
a custom strategy whose priority is `["ghost", "requests"]` (where
`ghost` is not in the registry), an all-engines-failed run reports
`attempted_engines = ["ghost", "requests"]`, not the registry
intersection `["requests"]`. -/
theorem c3_counterexample :
    crawlWithStrategy true
      { registry := ["requests"]
        run := fun _ => .ok
          ({ url := "https://example.com", title := "", text := ""
             hierarchy := [], metadata := [], status := "failed"
             timestamp := 0, error := some "HTTP 500" }, 0)
        analysis := Option.none, quality := Option.none
        selectionReason := fun _ _ => Value.none, now := 0 }
      "https://example.com"
      (some { engine_priority := ["ghost", "requests"] }) Value.none {} =
      .ok (allFailedResult "https://example.com" ["ghost", "requests"] 2
        (some "HTTP 500") 0) ∧
    (allFailedResult "https://example.com" ["ghost", "requests"] 2
        (some "HTTP 500") 0).metadata.get "attempted_engines"
      = some (.list [.str "ghost", .str "requests"]) ∧
    Value.list [.str "ghost", .str "requests"] ≠
      Value.list [.str "requests"] := by
  refine ⟨rfl, rfl, ?_⟩
  simp

/-- C4 (corrected).  Every `CrawlResult` freshly constructed by
`crawl_with_retry`, by the requests engine's `crawl`, or by the
orchestrator satisfies: `status = "failed"` iff the `error` field is set
(it may however be set to the *empty* string, when the raised exception's
message is empty); a failed result has empty text, title and hierarchy;
and a complete result carries no error.  `crawl_with_retry` returns
engine-produced results unchanged, so its output satisfies the invariant
whenever every result its oracle returns does. -/
theorem c4_amended :
    (∀ (name url : String) (lastErr : Option String) (now : ℚ),
      resultInvariant (retryFailureResult name url lastErr now)) ∧
    (∀ (init : Bool) (ev : ReqEvent) (url : String)
      (strategy : CrawlStrategy) (now : ℚ) (r : CrawlResult),
      requestsCrawl init ev url strategy now = .ok r → resultInvariant r) ∧
    (∀ (url msg : String) (now : ℚ),
      resultInvariant (validationFailureResult url msg now)) ∧
    (∀ (url : String) (attempted : List String) (total : Nat)
      (lastErr : Option String) (now : ℚ),
      resultInvariant (allFailedResult url attempted total lastErr now)) ∧
    (∀ (name url : String) (crawlFn : CrawlOracle)
      (strategy : CrawlStrategy) (now : ℚ),
      (∀ i r dt, crawlFn i = .ok (r, dt) → resultInvariant r) →
      resultInvariant (crawlWithRetry name url crawlFn strategy now).result) := by
  refine ⟨?_, ?_, ?_, ?_, ?_⟩
  · intro name url lastErr now
    exact ⟨by simp [retryFailureResult], fun _ => ⟨rfl, rfl, rfl⟩,
      fun h => absurd (show ("failed" : String) = "complete" from h)
        (by decide)⟩
  · intro init ev url strategy now r hok
    unfold requestsCrawl at hok
    by_cases hinit : init = true
    · rw [if_neg (by simp [hinit])] at hok
      cases ev with
      | success page =>
        have hr := Except.ok.inj hok
        subst hr
        exact ⟨by simp,
          fun h => absurd (show ("complete" : String) = "failed" from h)
            (by decide),
          fun _ => rfl⟩
      | timeout =>
        have hr := Except.ok.inj hok
        subst hr
        exact ⟨by simp, fun _ => ⟨rfl, rfl, rfl⟩,
          fun h => absurd (show ("failed" : String) = "complete" from h)
            (by decide)⟩
      | raised typeName msg =>
        have hr := Except.ok.inj hok
        subst hr
        exact ⟨by simp, fun _ => ⟨rfl, rfl, rfl⟩,
          fun h => absurd (show ("failed" : String) = "complete" from h)
            (by decide)⟩
    · rw [if_pos (by simp [hinit])] at hok
      exact Except.noConfusion hok
  · intro url msg now
    exact ⟨by simp [validationFailureResult], fun _ => ⟨rfl, rfl, rfl⟩,
      fun h => absurd (show ("failed" : String) = "complete" from h)
        (by decide)⟩
  · intro url attempted total lastErr now
    exact ⟨by simp [allFailedResult], fun _ => ⟨rfl, rfl, rfl⟩,
      fun h => absurd (show ("failed" : String) = "complete" from h)
        (by decide)⟩
  · intro name url crawlFn strategy now hP
    rcases crawlWithRetryLoop_result_cases name url crawlFn strategy now
        strategy.max_retries.toNat 0 0 [] Option.none with
      ⟨i, r, dt, hi, hres⟩ | ⟨le, hres⟩
    · unfold crawlWithRetry
      rw [hres]
      exact hP i r dt hi
    · unfold crawlWithRetry
      rw [hres]
      exact ⟨by simp [retryFailureResult], fun _ => ⟨rfl, rfl, rfl⟩,
        fun h => absurd (show ("failed" : String) = "complete" from h)
          (by decide)⟩

/-- C4, counterexample.  An engine whose `crawl` raises an exception with
an *empty* message (`str(e) = ""`) makes `crawl_with_retry` return a
result with `status = "failed"` whose error is the empty string — so
"`status = 'failed'` iff `error` is a non-empty string" fails as stated. -/
theorem c4_counterexample :
    (crawlWithRetry "requests" "https://a.com" (fun _ => .error "")
      { engine_priority := ["requests"], max_retries := 1 } 0).result.status
      = "failed" ∧
    (crawlWithRetry "requests" "https://a.com" (fun _ => .error "")
      { engine_priority := ["requests"], max_retries := 1 } 0).result.error
      = some "" := by
  constructor <;> rfl

/-- C5 (corrected).  `analyze_unified_intent` classifies by URL count and
by an extraction-keyword test that consults only the eight top-level
names of `content_type_patterns` (제목, 가격, 본문, 리뷰, 요약, 이미지,
링크, 날짜) — not their synonym lists: one URL and no such key → `single`
with confidence 0.9; one URL and a key → `selective`; two or more URLs
and no key → `bulk` with confidence 0.8; no URL and no platform-keyword +
search-verb combination → `invalid`; no URL with such a combination →
`search`, with confidence 0.7 when a platform and a search query are both
recovered. -/
theorem c5_amended (text : String) :
    ((extractUrls text).length = 1 → hasExtractionKeywords text = false →
      (analyzeUnifiedIntent text).request_type = "single" ∧
      (analyzeUnifiedIntent text).confidence = 9 / 10) ∧
    ((extractUrls text).length = 1 → hasExtractionKeywords text = true →
      (analyzeUnifiedIntent text).request_type = "selective") ∧
    (2 ≤ (extractUrls text).length → hasExtractionKeywords text = false →
      (analyzeUnifiedIntent text).request_type = "bulk" ∧
      (analyzeUnifiedIntent text).confidence = 8 / 10) ∧
    ((extractUrls text).length = 0 →
      ¬ (hasPlatformKeywords text = true ∧ hasSearchKeywords text = true) →
      (analyzeUnifiedIntent text).request_type = "invalid") ∧
    ((extractUrls text).length = 0 →
      hasPlatformKeywords text = true → hasSearchKeywords text = true →
      (analyzeUnifiedIntent text).request_type = "search" ∧
      ((analyzeUnifiedIntent text).platform.isSome ∧
        (analyzeUnifiedIntent text).search_query.isSome →
        (analyzeUnifiedIntent text).confidence = 7 / 10)) := by
  refine ⟨?_, ?_, ?_, ?_, ?_⟩
  · intro h1 h2
    constructor <;> simp [analyzeUnifiedIntent, h1, h2]
  · intro h1 h2
    simp [analyzeUnifiedIntent, h1, h2, analyzeSelectiveIntent]
  · intro h1 h2
    have h0 : ¬ ((extractUrls text).length = 0) := by omega
    have h1' : ¬ ((extractUrls text).length = 1) := by omega
    constructor <;> simp [analyzeUnifiedIntent, h0, h1', h2]
  · intro h1 h2
    simp [analyzeUnifiedIntent, h1, h2]
  · intro h1 h2 h3
    constructor
    · simp [analyzeUnifiedIntent, h1, h2, h3, analyzeSearchIntent]
    · intro hsome
      simp only [analyzeUnifiedIntent, h1, h2, h3, and_self, if_true,
        if_pos] at hsome ⊢
      simp only [analyzeSearchIntent] at hsome ⊢
      rw [if_pos]
      exact hsome

/-- C5, counterexample.  The text `"https://a.com title"` contains the
synonym `title` of the extraction vocabulary and yields exactly one URL,
yet the router classifies it as `single` with confidence 0.9 — not as
`selective` as the claim (which includes synonyms in the keyword test)
requires. -/
theorem c5_counterexample :
    (extractUrls "https://a.com title").length = 1 ∧
    claimKeywordOccurs "https://a.com title" = true ∧
    hasExtractionKeywords "https://a.com title" = false ∧
    (analyzeUnifiedIntent "https://a.com title").request_type = "single" ∧
    (analyzeUnifiedIntent "https://a.com title").confidence = 9 / 10 :=
  ⟨rfl, rfl, rfl, rfl, rfl⟩

/-- C7 (corrected).  `clean_crawled_text` is not idempotent: the per-line
hashtag-spacing rewrite `#\s*([^#]+?)#` → `# \1 #` runs after the
double-space collapsing pass, so on an already-cleaned line it captures a
trailing space inside the group and inserts another one.  Concretely,
cleaning `"a#b#"` yields `"a# b #"`, and cleaning that output yields
`"a# b  #"` (with a double space), a different string. -/
theorem c7_amended :
    cleanCrawledText "a#b#" = "a# b #" ∧
    cleanCrawledText "a# b #" = "a# b  #" :=
  ⟨rfl, rfl⟩

/-- C7, counterexample.  A second application of `clean_crawled_text`
changes the output of a first application. -/
theorem c7_counterexample :
    cleanCrawledText (cleanCrawledText "a#b#") ≠ cleanCrawledText "a#b#" := by
  decide

theorem digitChar_inj : ∀ a : Nat, a < 10 → ∀ b : Nat, b < 10 →
    digitChar a = digitChar b → a = b := by decide

/-- `strftime('%Y%m%d_%H%M%S')` determines the second-truncated instant:
two valid readings that format to the same bulk job id agree on every
field down to the second. -/
theorem bulkJobId_inj_seconds (t1 t2 : PyDateTime) (h1 : t1.valid)
    (h2 : t2.valid) (h : bulkJobId t1 = bulkJobId t2) :
    t1.toSecondsTuple = t2.toSecondsTuple := by
  have g : ∀ i : Nat,
      ((bulkJobId t1).data).get? i = ((bulkJobId t2).data).get? i :=
    fun i => congrArg (fun l => l.get? i) (congrArg String.data h)
  have dlt : ∀ n : Nat, n % 10 < 10 := fun n => Nat.mod_lt _ (by omega)
  obtain ⟨hy1, hy1b, hmo1, hmo1b, hd1, hd1b, hh1, hmi1, hs1, _⟩ := h1
  obtain ⟨hy2, hy2b, hmo2, hmo2b, hd2, hd2b, hh2, hmi2, hs2, _⟩ := h2
  have ey1 := digitChar_inj _ (dlt _) _ (dlt _) (Option.some.inj (g 5))
  have ey2 := digitChar_inj _ (dlt _) _ (dlt _) (Option.some.inj (g 6))
  have ey3 := digitChar_inj _ (dlt _) _ (dlt _) (Option.some.inj (g 7))
  have ey4 := digitChar_inj _ (dlt _) _ (dlt _) (Option.some.inj (g 8))
  have emo1 := digitChar_inj _ (dlt _) _ (dlt _) (Option.some.inj (g 9))
  have emo2 := digitChar_inj _ (dlt _) _ (dlt _) (Option.some.inj (g 10))
  have ed1 := digitChar_inj _ (dlt _) _ (dlt _) (Option.some.inj (g 11))
  have ed2 := digitChar_inj _ (dlt _) _ (dlt _) (Option.some.inj (g 12))
  have eh1 := digitChar_inj _ (dlt _) _ (dlt _) (Option.some.inj (g 14))
  have eh2 := digitChar_inj _ (dlt _) _ (dlt _) (Option.some.inj (g 15))
  have emi1 := digitChar_inj _ (dlt _) _ (dlt _) (Option.some.inj (g 16))
  have emi2 := digitChar_inj _ (dlt _) _ (dlt _) (Option.some.inj (g 17))
  have es1 := digitChar_inj _ (dlt _) _ (dlt _) (Option.some.inj (g 18))
  have es2 := digitChar_inj _ (dlt _) _ (dlt _) (Option.some.inj (g 19))
  have fy : t1.year = t2.year := by omega
  have fmo : t1.month = t2.month := by omega
  have fd : t1.day = t2.day := by omega
  have fh : t1.hour = t2.hour := by omega
  have fmi : t1.minute = t2.minute := by omega
  have fs : t1.second = t2.second := by omega
  unfold PyDateTime.toSecondsTuple
  rw [fy, fmo, fd, fh, fmi, fs]

/-- Two readings within the same calendar second format to the same bulk
job id. -/
theorem bulkJobId_congr (t1 t2 : PyDateTime)
    (h : t1.toSecondsTuple = t2.toSecondsTuple) :
    bulkJobId t1 = bulkJobId t2 := by
  unfold PyDateTime.toSecondsTuple at h
  simp only [Prod.mk.injEq] at h
  obtain ⟨hy, hmo, hda, hho, hmi, hse⟩ := h
  unfold bulkJobId strftimeJobFmt
  rw [hy, hmo, hda, hho, hmi, hse]

/-- C8 (corrected).  The bulk job id is `"bulk_"` plus the acceptance time
formatted to whole seconds, so: two jobs accepted in calendar seconds
that differ receive distinct ids; but the id carries no sub-second or
per-request entropy — two jobs accepted within the same second share one
id, and the second acceptance overwrites the first job's entry in the
process-wide store. -/
theorem c8_amended :
    (∀ t1 t2 : PyDateTime, t1.valid → t2.valid →
      t1.toSecondsTuple ≠ t2.toSecondsTuple → bulkJobId t1 ≠ bulkJobId t2) ∧
    (∀ t1 t2 : PyDateTime, t1.toSecondsTuple = t2.toSecondsTuple →
      bulkJobId t1 = bulkJobId t2) ∧
    (∀ (store : Dict) (t1 t2 : PyDateTime) (n1 n2 : Nat),
      t1.toSecondsTuple = t2.toSecondsTuple →
      Dict.get (acceptBulkJob (acceptBulkJob store t1 n1) t2 n2)
          (bulkJobId t1) = some (bulkJobInitEntry n2 t2)) := by
  refine ⟨?_, bulkJobId_congr, ?_⟩
  · intro t1 t2 h1 h2 hne h
    exact hne (bulkJobId_inj_seconds t1 t2 h1 h2 h)
  · intro store t1 t2 n1 n2 h
    unfold acceptBulkJob
    rw [bulkJobId_congr t1 t2 h]
    exact Dict.get_set_self _ _ _

/-- C8, counterexample.  Two bulk jobs accepted during the same calendar
second (microseconds 0 and 999999) are distinct acceptance events but
receive the same job id, and the later job's store entry replaces the
earlier job's entry (here: a 1-URL job overwritten by a 2-URL job). -/
theorem c8_counterexample :
    (⟨2025, 10, 12, 3, 4, 5, 0⟩ : PyDateTime) ≠
      ⟨2025, 10, 12, 3, 4, 5, 999999⟩ ∧
    bulkJobId ⟨2025, 10, 12, 3, 4, 5, 0⟩ =
      bulkJobId ⟨2025, 10, 12, 3, 4, 5, 999999⟩ ∧
    Dict.get
      (acceptBulkJob (acceptBulkJob [] ⟨2025, 10, 12, 3, 4, 5, 0⟩ 1)
        ⟨2025, 10, 12, 3, 4, 5, 999999⟩ 2)
      (bulkJobId ⟨2025, 10, 12, 3, 4, 5, 0⟩) =
      some (bulkJobInitEntry 2 ⟨2025, 10, 12, 3, 4, 5, 999999⟩) ∧
    bulkJobInitEntry 2 ⟨2025, 10, 12, 3, 4, 5, 999999⟩ ≠
      bulkJobInitEntry 1 ⟨2025, 10, 12, 3, 4, 5, 0⟩ := by
  refine ⟨by decide, rfl, rfl, ?_⟩
  simp [bulkJobInitEntry]

/-- C10 (corrected).  `post_process_crawl_result` leaves `url`, `title`,
`hierarchy`, `status`, `error` and `timestamp` unchanged, replaces `text`
by `extract_main_content(text)`, and returns its input unmodified when
`clean_text` is false or the text is empty.  Every pre-existing metadata
*key* survives, and every key outside the six post-processing keys keeps
its value — but a pre-existing entry under one of those six keys is
*overwritten* with the new processing value, not preserved. -/
theorem c10_amended :
    (∀ (r : CrawlResult) (nowIso : String),
      postProcessCrawlResult r false nowIso = r) ∧
    (∀ (r : CrawlResult) (nowIso : String) (b : Bool), r.text = "" →
      postProcessCrawlResult r b nowIso = r) ∧
    (∀ (r : CrawlResult) (nowIso : String), r.text ≠ "" →
      (postProcessCrawlResult r true nowIso).url = r.url ∧
      (postProcessCrawlResult r true nowIso).title = r.title ∧
      (postProcessCrawlResult r true nowIso).hierarchy = r.hierarchy ∧
      (postProcessCrawlResult r true nowIso).status = r.status ∧
      (postProcessCrawlResult r true nowIso).timestamp = r.timestamp ∧
      (postProcessCrawlResult r true nowIso).error = r.error ∧
      (postProcessCrawlResult r true nowIso).text
        = extractMainContent r.text ∧
      (∀ k, k ∈ Dict.keys r.metadata →
        k ∈ Dict.keys (postProcessCrawlResult r true nowIso).metadata) ∧
      (∀ k, ¬ k ∈ postProcessingKeys →
        Dict.get (postProcessCrawlResult r true nowIso).metadata k
          = Dict.get r.metadata k)) := by
  refine ⟨?_, ?_, ?_⟩
  · intro r nowIso
    unfold postProcessCrawlResult
    rw [if_pos (Or.inl (by simp))]
  · intro r nowIso b h
    unfold postProcessCrawlResult
    rw [if_pos (Or.inr h)]
  · intro r nowIso h
    have hcond : ¬ (¬ (true = true) ∨ r.text = "") := by simp [h]
    unfold postProcessCrawlResult
    rw [if_neg hcond]
    refine ⟨rfl, rfl, rfl, rfl, rfl, rfl, rfl, ?_, ?_⟩
    · intro k hk
      exact Dict.mem_keys_update _ _ _ hk
    · intro k hk
      refine Dict.get_update_notin _ _ _ ?_
      intro p hp
      simp only [postProcessingKeys, List.mem_cons, List.not_mem_nil,
        or_false] at hk
      push_neg at hk
      obtain ⟨k1, k2, k3, k4, k5, k6⟩ := hk
      simp only [List.mem_cons, List.not_mem_nil, or_false] at hp
      rcases hp with h' | h' | h' | h' | h' | h' <;> subst h'
      · exact fun hh => k1 hh.symm
      · exact fun hh => k2 hh.symm
      · exact fun hh => k3 hh.symm
      · exact fun hh => k4 hh.symm
      · exact fun hh => k5 hh.symm
      · exact fun hh => k6 hh.symm

/-- C10, counterexample.  A crawl result whose metadata already contains
`post_processing_applied = False` has that entry overwritten to `True` by
`post_process_crawl_result`, so "every pre-existing metadata key is
preserved with its value" fails as stated. -/
theorem c10_counterexample :
    Dict.get (postProcessCrawlResult
      { url := "u", title := "t", text := "hello", hierarchy := []
        metadata := [("post_processing_applied", Value.bool false)]
        status := "complete", timestamp := 0, error := Option.none }
      true "TS").metadata "post_processing_applied"
      = some (Value.bool true) ∧
    Dict.get [("post_processing_applied", Value.bool false)]
      "post_processing_applied" = some (Value.bool false) ∧
    some (Value.bool true) ≠ some (Value.bool false) := by
  refine ⟨rfl, rfl, ?_⟩
  simp

/-! ## Witnesses -/

/-- C1, witness: a 404 stops after one attempt with no sleep; a constantly
transient `"boom"` oracle under the default strategy (3 retries, 1 s base
wait) performs 3 attempts with sleeps `[1, 2]`. -/
theorem c1_retry_policy_witness :
    ((crawlWithRetry "requests" "https://a.com"
        (fun _ => .error "HTTP 404 Not Found")
        { engine_priority := ["requests"] } 0).attempts = 1 ∧
      (crawlWithRetry "requests" "https://a.com"
        (fun _ => .error "HTTP 404 Not Found")
        { engine_priority := ["requests"] } 0).sleeps = [] ∧
      (crawlWithRetry "requests" "https://a.com"
        (fun _ => .error "HTTP 404 Not Found")
        { engine_priority := ["requests"] } 0).result.status = "failed" ∧
      (crawlWithRetry "requests" "https://a.com"
        (fun _ => .error "HTTP 404 Not Found")
        { engine_priority := ["requests"] } 0).result.error
        = some "HTTP 404 Not Found") ∧
    ((crawlWithRetry "requests" "https://a.com" (fun _ => .error "boom")
        { engine_priority := ["requests"] } 0).attempts
        = ({ engine_priority := ["requests"] } : CrawlStrategy).max_retries.toNat ∧
      (crawlWithRetry "requests" "https://a.com" (fun _ => .error "boom")
        { engine_priority := ["requests"] } 0).sleeps
        = (List.range
            (({ engine_priority := ["requests"] } : CrawlStrategy).max_retries.toNat - 1)).map
            (fun i =>
              ({ engine_priority := ["requests"] } : CrawlStrategy).wait_time * 2 ^ i) ∧
      (crawlWithRetry "requests" "https://a.com" (fun _ => .error "boom")
        { engine_priority := ["requests"] } 0).result.status = "failed" ∧
      (crawlWithRetry "requests" "https://a.com" (fun _ => .error "boom")
        { engine_priority := ["requests"] } 0).result.error = some "boom") := by
  constructor
  · exact c1_retry_policy.1 "requests" "https://a.com"
      { engine_priority := ["requests"] }
      (fun _ => .error "HTTP 404 Not Found") "HTTP 404 Not Found" 0
      (by decide) rfl (by decide)
  · exact c1_retry_policy.2 "requests" "https://a.com"
      { engine_priority := ["requests"] } (fun _ => "boom") 0 (by decide)
      (fun _ => (by decide : isPermanentError "boom" = false))

/-- C2, witness: with `activity_timeout = 2`, the read loop on a concrete
two-chunk stream never stops with the activity-gap reason. -/
theorem c2_activity_gap_witness :
    (0 : ℚ) ≤ 2 ∧
    (readResponseLoop 2 60 0 [(0, "x"), (50, "y")] []).stop
      ≠ ReadStop.activityGap := by
  refine ⟨by norm_num, ?_⟩
  exact (c2_activity_gap_never_fires 2 60 0 (by norm_num)).1
    [(0, "x"), (50, "y")] []

/-- C3, witness: on the concrete two-engine run that fails everywhere, the
failed result reports the whole custom priority list. -/
theorem c3_amended_witness :
    (validateUrl "https://example.com").1 = true ∧
    (allFailedResult "https://example.com" ["ghost", "requests"] 2
        (some "HTTP 500") 0).metadata.get "attempted_engines"
      = some (.list [Value.str "ghost", Value.str "requests"]) := by
  refine ⟨rfl, ?_⟩
  exact c3_amended
    { registry := ["requests"]
      run := fun _ => .ok
        ({ url := "https://example.com", title := "", text := ""
           hierarchy := [], metadata := [], status := "failed"
           timestamp := 0, error := some "HTTP 500" }, 0)
      analysis := Option.none, quality := Option.none
      selectionReason := fun _ _ => Value.none, now := 0 }
    "https://example.com"
    (some { engine_priority := ["ghost", "requests"] }) Value.none {}
    (allFailedResult "https://example.com" ["ghost", "requests"] 2
      (some "HTTP 500") 0) rfl rfl rfl

/-- C4, witness: the invariant holds for concrete instances of each
constructor, and for `crawl_with_retry` under an always-raising oracle. -/
theorem c4_amended_witness :
    resultInvariant (retryFailureResult "requests" "https://a.com"
      (some "boom") 0) ∧
    resultInvariant
      { url := "u", title := "", text := "", hierarchy := []
        metadata := [("crawler_used", Value.str "requests"),
                     ("error_type", Value.str "TimeoutError"),
                     ("processing_time", Value.str "0s")]
        status := "failed", timestamp := 0
        error := some ("연결 시간 초과 (" ++ toString (30 : Int) ++ "초)") } ∧
    resultInvariant (validationFailureResult "https://a.com" "bad" 0) ∧
    resultInvariant (allFailedResult "https://a.com" ["requests"] 1
      (some "boom") 0) ∧
    resultInvariant (crawlWithRetry "requests" "https://a.com"
      (fun _ => .error "boom") { engine_priority := ["requests"] } 0).result := by
  refine ⟨c4_amended.1 "requests" "https://a.com" (some "boom") 0, ?_,
    c4_amended.2.2.1 "https://a.com" "bad" 0,
    c4_amended.2.2.2.1 "https://a.com" ["requests"] 1 (some "boom") 0, ?_⟩
  · exact c4_amended.2.1 true ReqEvent.timeout "u"
      { engine_priority := [] } 0 _ rfl
  · exact c4_amended.2.2.2.2 "requests" "https://a.com"
      (fun _ => .error "boom") { engine_priority := ["requests"] } 0
      (fun _ _ _ h => Except.noConfusion h)

/-- C5, witness: each classification row at a concrete input. -/
theorem c5_amended_witness :
    (analyzeUnifiedIntent "https://a.com").request_type = "single" ∧
    (analyzeUnifiedIntent "https://a.com").confidence = 9 / 10 ∧
    (analyzeUnifiedIntent "https://a.com 제목").request_type = "selective" ∧
    (analyzeUnifiedIntent "https://a.com https://b.org").request_type
      = "bulk" ∧
    (analyzeUnifiedIntent "https://a.com https://b.org").confidence
      = 8 / 10 ∧
    (analyzeUnifiedIntent "hello").request_type = "invalid" ∧
    (analyzeUnifiedIntent "쿠팡에서 콜라 찾아줘").request_type = "search" := by
  obtain ⟨h1, h2⟩ := (c5_amended "https://a.com").1 rfl rfl
  have h3 := (c5_amended "https://a.com 제목").2.1 rfl rfl
  obtain ⟨h4, h5⟩ := (c5_amended "https://a.com https://b.org").2.2.1
    (by decide) rfl
  have h6 := (c5_amended "hello").2.2.2.1 rfl (by decide)
  obtain ⟨h7, _⟩ := (c5_amended "쿠팡에서 콜라 찾아줘").2.2.2.2 rfl rfl rfl
  exact ⟨h1, h2, h3, h4, h5, h6, h7⟩

/-- C8, witness: acceptance instants one second apart receive distinct
job ids. -/
theorem c8_amended_witness :
    (⟨2025, 10, 12, 3, 4, 5, 0⟩ : PyDateTime).valid ∧
    (⟨2025, 10, 12, 3, 4, 6, 0⟩ : PyDateTime).valid ∧
    bulkJobId ⟨2025, 10, 12, 3, 4, 5, 0⟩ ≠
      bulkJobId ⟨2025, 10, 12, 3, 4, 6, 0⟩ := by
  refine ⟨by decide, by decide, ?_⟩
  exact c8_amended.1 ⟨2025, 10, 12, 3, 4, 5, 0⟩ ⟨2025, 10, 12, 3, 4, 6, 0⟩
    (by decide) (by decide) (by decide)

/-- C9, witness: an engine-returned failed result passes through after one
attempt and is counted as a successful request. -/
theorem c9_failed_result_passthrough_witness :
    (crawlWithRetry "requests" "https://a.com"
      (fun _ => .ok
        ({ url := "https://a.com", title := "", text := "", hierarchy := []
           metadata := [], status := "failed", timestamp := 0
           error := some "HTTP 500" }, 1))
      { engine_priority := ["requests"] } 0).result =
      { url := "https://a.com", title := "", text := "", hierarchy := []
        metadata := [], status := "failed", timestamp := 0
        error := some "HTTP 500" } ∧
    (crawlWithRetry "requests" "https://a.com"
      (fun _ => .ok
        ({ url := "https://a.com", title := "", text := "", hierarchy := []
           metadata := [], status := "failed", timestamp := 0
           error := some "HTTP 500" }, 1))
      { engine_priority := ["requests"] } 0).attempts = 1 ∧
    (updateStats {} true 1).successful_requests = 1 := by
  have h := c9_failed_result_passthrough "requests" "https://a.com"
    { engine_priority := ["requests"] }
    (fun _ => .ok
      ({ url := "https://a.com", title := "", text := "", hierarchy := []
         metadata := [], status := "failed", timestamp := 0
         error := some "HTTP 500" }, 1))
    0 1
    { url := "https://a.com", title := "", text := "", hierarchy := []
      metadata := [], status := "failed", timestamp := 0
      error := some "HTTP 500" }
    (by decide) rfl rfl
  exact ⟨h.1, h.2.1, (h.2.2.2.2 {}).1⟩

/-- C10, witness: on a concrete result with text `"hello"` and a metadata
entry under the key `"k"`, post-processing keeps the frame fields, keeps
the foreign key's value, and keeps the key present. -/
theorem c10_amended_witness :
    (postProcessCrawlResult
      { url := "u", title := "t", text := "hello", hierarchy := []
        metadata := [("k", Value.int 7)], status := "complete"
        timestamp := 0, error := Option.none } true "TS").url = "u" ∧
    (postProcessCrawlResult
      { url := "u", title := "t", text := "hello", hierarchy := []
        metadata := [("k", Value.int 7)], status := "complete"
        timestamp := 0, error := Option.none } true "TS").status
      = "complete" ∧
    (postProcessCrawlResult
      { url := "u", title := "t", text := "hello", hierarchy := []
        metadata := [("k", Value.int 7)], status := "complete"
        timestamp := 0, error := Option.none } true "TS").text
      = extractMainContent "hello" ∧
    Dict.get (postProcessCrawlResult
      { url := "u", title := "t", text := "hello", hierarchy := []
        metadata := [("k", Value.int 7)], status := "complete"
        timestamp := 0, error := Option.none } true "TS").metadata "k"
      = Dict.get [("k", Value.int 7)] "k" ∧
    "k" ∈ Dict.keys (postProcessCrawlResult
      { url := "u", title := "t", text := "hello", hierarchy := []
        metadata := [("k", Value.int 7)], status := "complete"
        timestamp := 0, error := Option.none } true "TS").metadata := by
  have h := c10_amended.2.2
    { url := "u", title := "t", text := "hello", hierarchy := []
      metadata := [("k", Value.int 7)], status := "complete"
      timestamp := 0, error := Option.none } "TS" (by decide)
  exact ⟨h.1, h.2.2.2.1, h.2.2.2.2.2.2.1,
    h.2.2.2.2.2.2.2.2 "k" (by decide),
    h.2.2.2.2.2.2.2.1 "k" (by decide)⟩

end AiCrawler
